import Mathlib

/-! # Account lifecycle of the authentication backend

A shallow embedding of `Backend/myapp/User/controller/user.controller.js`,
`Backend/middleware/auth.middleware.js` and the two protected routes of
`Backend/routes/users.js`.

Conventions of the embedding.

* A request field read from `req.body` is an `Option String`: `none` is a field
  that is absent (`undefined`), `some s` a string.  The JavaScript test `!x` is
  `!(truthy x)`: an absent field and the empty string are falsy.
* Times are milliseconds since the epoch (`Date.now()`), natural numbers.
* Every handler is a function of the collaborators (`Env`), the request and the
  account store; it returns the HTTP response, the store afterwards, the OTP
  messages handed to the mailer and the tokens issued.
* A collaborator that throws is a collaborator that answers `none` (or `false`
  for the mailer and the two store flags); each handler spells out its own
  `catch` branch.
-/

namespace AuthBackend

/-! ## Data model -/

/-- An account document of the `userModel` collection. -/
structure User where
  _id : Nat
  name : String
  email : String
  password : String
  otp : Option String
  otpExpires : Option Nat
  isVerified : Bool
  profileImage : Option String
  deriving DecidableEq, Repr

/-- A document loaded with `.select("-password")`: every field but the password hash. -/
structure AuthUser where
  _id : Nat
  name : String
  email : String
  otp : Option String
  otpExpires : Option Nat
  isVerified : Bool
  profileImage : Option String
  deriving DecidableEq, Repr

/-- The account collection, in natural (insertion) order. -/
abbrev Store := List User

/-- Scalar JSON values occurring in responses. -/
inductive Prim where
  | null
  | bool (b : Bool)
  | num (n : Nat)
  | str (s : String)
  deriving DecidableEq, Repr

/-- A JSON value of a response body: a scalar or a flat object. -/
inductive JVal where
  | prim (p : Prim)
  | obj (fields : List (String × Prim))
  deriving DecidableEq, Repr

/-- A cookie directive set through `res.cookie`. -/
structure Cookie where
  name : String
  value : String
  httpOnly : Bool
  secure : Option Bool
  maxAge : Option Nat
  expires : Option Nat
  sameSite : String
  deriving DecidableEq, Repr

/-- An HTTP response: status code (200 unless `res.status` was called), JSON body, cookies. -/
structure Res where
  statusCode : Nat
  body : List (String × JVal)
  cookies : List Cookie
  deriving DecidableEq, Repr

/-- The request: body fields, uploaded file path, route parameters, authorization header. -/
structure Req where
  name : Option String := none
  email : Option String := none
  password : Option String := none
  confirm_password : Option String := none
  otp : Option String := none
  oldPassword : Option String := none
  newPassword : Option String := none
  file : Option String := none
  id : Nat := 0
  token : String := ""
  authorization : Option String := none
  deriving DecidableEq, Repr

/-- Modelled from the spec: the helper modules `helpers/jwt.password.js`,
`helpers/jwt.helper.js` and `helpers/otp.helper.js` and the mongoose model
`models/user.models.js` are not part of the sources at hand, so the collaborators are
parameters.  `hashPassword` answers `none` when hashing throws; `comparePassword`
never throws (spec 4.1); `generateToken id ttl` signs a token for `id`, `ttl = none`
being the default lifetime; `verifyToken` answers `none` when it throws, `some none`
when it returns a payload without `userId`, `some (some id)` otherwise; `generateOTP`
is the code drawn by this request; `sendOTPEmail` is `false` when the mailer throws;
`dbReadOk` / `dbWriteOk` are `false` when a store read / write throws; `now` is
`Date.now()`. -/
structure Env where
  now : Nat
  hashPassword : String → Option String
  comparePassword : String → String → Bool
  generateToken : Nat → Option String → String
  verifyToken : String → Option (Option Nat)
  generateOTP : String
  sendOTPEmail : String → String → Bool
  dbReadOk : Bool
  dbWriteOk : Bool

/-- What a handler leaves behind: the response, the store, the OTP mails dispatched
(`sendOTPEmail` calls that returned) and the tokens issued (`generateToken` calls). -/
structure Outcome where
  res : Res
  db : Store
  mails : List (String × String)
  issued : List (Nat × Option String)
  deriving DecidableEq, Repr

/-! ## JavaScript primitives -/

/-- Truthiness of an optional string: absent and empty are falsy. -/
def truthy : Option String → Bool
  | none => false
  | some s => s != ""

/-- Strict equality `===` on optional strings. -/
def strictEq (a b : Option String) : Bool := a == b

/-- The relational test `user.otpExpires < Date.now()`: an absent date converts to
`NaN`, and every comparison with `NaN` is false. -/
def dateLt (d : Option Nat) (now : Nat) : Bool :=
  match d with
  | none => false
  | some t => decide (t < now)

/-- The replacement `s.replace(/\\/g, "/")`: every backslash becomes a slash. -/
def slashes (s : String) : String :=
  s.map (fun c => if c = Char.ofNat 92 then Char.ofNat 47 else c)

/-- The public URL of a stored profile image. -/
def imageUrl (p : String) : String := "http://localhost:3000/" ++ slashes p

/-! ## Response builders -/

/-- The string as a JSON value. -/
def jstr (s : String) : JVal := JVal.prim (Prim.str s)

/-- The response `res.status(code).json({ message })`. -/
def messageRes (code : Nat) (m : String) : Res :=
  { statusCode := code, body := [("message", jstr m)], cookies := [] }

/-- The response `res.status(code).json({ status, message })`. -/
def statusRes (code : Nat) (s m : String) : Res :=
  { statusCode := code, body := [("status", jstr s), ("message", jstr m)], cookies := [] }

/-- The response `res.status(401).json({ success: false, message })` of the auth gate. -/
def deniedRes (m : String) : Res :=
  { statusCode := 401,
    body := [("success", JVal.prim (Prim.bool false)), ("message", jstr m)],
    cookies := [] }

/-- A handler that answers without touching the store or any collaborator. -/
def reply (r : Res) (db : Store) : Outcome :=
  { res := r, db := db, mails := [], issued := [] }

/-! ## Store operations -/

/-- Modelled from the spec: `userModel.findOne({ email })` of the absent mongoose model,
the spec's `store.findByEmail`: the first account with this email; an absent email
matches no account. -/
def findOne (db : Store) (email : Option String) : Option User :=
  match email with
  | none => none
  | some e => db.find? (fun u => u.email == e)

/-- Modelled from the spec: `userModel.findById(id)`, the first account with this id. -/
def findById (db : Store) (id : Nat) : Option User :=
  db.find? (fun u => u._id == id)

/-- Modelled from the spec: an update of the stored document with this id
(`user.save()` writes the modified paths of the loaded document,
`findByIdAndUpdate(id, patch)` the patch); the first account with this id is
rewritten by `f`, and no account is touched when there is none. -/
def updateById (db : Store) (id : Nat) (f : User → User) : Store :=
  match db with
  | [] => []
  | d :: ds => if d._id = id then f d :: ds else d :: updateById ds id f

/-- Modelled from the spec: the identifier given to a created document, one that no
stored account carries. -/
def freshId (db : Store) : Nat :=
  (db.map (fun u => u._id)).foldr max 0 + 1

/-- Projection of a loaded document by `.select("-password")`. -/
def selectNoPassword (u : User) : AuthUser :=
  { _id := u._id, name := u.name, email := u.email, otp := u.otp,
    otpExpires := u.otpExpires, isVerified := u.isVerified,
    profileImage := u.profileImage }

/-- JSON rendering of an optional string (`null` when absent). -/
def optStr : Option String → Prim
  | none => Prim.null
  | some s => Prim.str s

/-! ## The controller (`UserController`) -/

/-- The handler `UserController.userRegistration`. -/
def userRegistration (env : Env) (req : Req) (db : Store) : Outcome :=
  if !truthy req.name || !truthy req.email || !truthy req.password
      || !truthy req.confirm_password then
    reply (messageRes 400 "All fields are required") db
  else if !strictEq req.password req.confirm_password then
    reply (messageRes 400 "Passwords do not match") db
  else if !env.dbReadOk then
    reply (messageRes 500 "Internal server error") db
  else
    match findOne db req.email with
    | some _ => reply (messageRes 400 "Email already registered") db
    | none =>
      match env.hashPassword (req.password.getD "") with
      | none => reply (messageRes 500 "Internal server error") db
      | some hashedPassword =>
        let otp := env.generateOTP
        let otpExpires := env.now + 50 * 60 * 1000
        let profileImage := req.file
        if !env.dbWriteOk then
          reply (messageRes 500 "Internal server error") db
        else
          let newUser : User :=
            { _id := freshId db, name := req.name.getD "", email := req.email.getD "",
              password := hashedPassword, otp := some otp, otpExpires := some otpExpires,
              isVerified := false, profileImage := profileImage }
          if !env.sendOTPEmail (req.email.getD "") otp then
            { res := messageRes 500 "Internal server error", db := db ++ [newUser],
              mails := [], issued := [] }
          else
            { res :=
                { statusCode := 201,
                  body :=
                    [("status", jstr "success"),
                     ("message", jstr "User registered. Please verify your email via OTP."),
                     ("userId", JVal.prim (Prim.num newUser._id)),
                     ("profileImage",
                        JVal.prim (if truthy profileImage
                          then Prim.str (imageUrl (profileImage.getD "")) else Prim.null))],
                  cookies := [] },
              db := db ++ [newUser],
              mails := [(req.email.getD "", otp)],
              issued := [] }

/-- The handler `UserController.verifyEmailOTP`. -/
def verifyEmailOTP (env : Env) (req : Req) (db : Store) : Outcome :=
  if !env.dbReadOk then
    reply (messageRes 500 "Internal server error") db
  else
    match findOne db req.email with
    | none => reply (messageRes 404 "User not found") db
    | some user =>
      if user.isVerified then
        reply (messageRes 400 "User already verified") db
      else if !strictEq user.otp req.otp || dateLt user.otpExpires env.now then
        reply (messageRes 400 "Invalid or expired OTP") db
      else if !env.dbWriteOk then
        reply (messageRes 500 "Internal server error") db
      else
        { res := statusRes 200 "success" "Email verified successfully",
          db := updateById db user._id
            (fun d => { d with isVerified := true, otp := none, otpExpires := none }),
          mails := [], issued := [] }

/-- The handler `UserController.resendOTP`. -/
def resendOTP (env : Env) (req : Req) (db : Store) : Outcome :=
  if !env.dbReadOk then
    reply (messageRes 500 "Internal server error") db
  else
    match findOne db req.email with
    | none => reply (messageRes 404 "User not found") db
    | some user =>
      if user.isVerified then
        reply (messageRes 400 "User already verified") db
      else
        let otp := env.generateOTP
        if !env.dbWriteOk then
          reply (messageRes 500 "Internal server error") db
        else
          let db1 := updateById db user._id
            (fun d => { d with otp := some otp, otpExpires := some (env.now + 10 * 60 * 1000) })
          if !env.sendOTPEmail (req.email.getD "") otp then
            { res := messageRes 500 "Internal server error", db := db1,
              mails := [], issued := [] }
          else
            { res := statusRes 200 "success" "OTP resent successfully", db := db1,
              mails := [(req.email.getD "", otp)], issued := [] }

/-- The handler `UserController.userLogin`. -/
def userLogin (env : Env) (req : Req) (db : Store) : Outcome :=
  if !truthy req.email || !truthy req.password then
    reply (messageRes 400 "Email and password required") db
  else if !env.dbReadOk then
    reply (messageRes 500 "Login failed") db
  else
    match findOne db req.email with
    | none => reply (messageRes 404 "User not registered") db
    | some user =>
      if !user.isVerified then
        reply (messageRes 403 "Please verify your email before login") db
      else if !env.comparePassword (req.password.getD "") user.password then
        reply (messageRes 400 "Invalid credentials") db
      else
        let token := env.generateToken user._id none
        { res :=
            { statusCode := 200,
              body :=
                [("status", jstr "success"),
                 ("message", jstr "Login successful"),
                 ("token", jstr token),
                 ("user", JVal.obj
                    [("id", Prim.num user._id),
                     ("name", Prim.str user.name),
                     ("email", Prim.str user.email),
                     ("profileImage", optStr user.profileImage)])],
              cookies :=
                [{ name := "token", value := token, httpOnly := true, secure := some false,
                   maxAge := some (24 * 60 * 60 * 1000), expires := none,
                   sameSite := "Lax" }] },
          db := db, mails := [], issued := [(user._id, none)] }

/-- The handler `UserController.userLogout`. -/
def userLogout (_env : Env) (_req : Req) (db : Store) : Outcome :=
  reply
    { statusCode := 200,
      body := [("status", jstr "success"), ("message", jstr "Logged out successfully")],
      cookies :=
        [{ name := "token", value := "", httpOnly := true, secure := none,
           maxAge := none, expires := some 0, sameSite := "Lax" }] }
    db

/-- The handler `UserController.checkEmail`. -/
def checkEmail (env : Env) (req : Req) (db : Store) : Outcome :=
  if !truthy req.email then
    reply (statusRes 400 "error" "Email is required") db
  else if !env.dbReadOk then
    reply (statusRes 500 "error" "Server error") db
  else
    match findOne db req.email with
    | none => reply (statusRes 404 "error" "Email not found") db
    | some user =>
      reply
        { statusCode := 200,
          body :=
            [("status", jstr "success"),
             ("message", jstr "Email exists"),
             ("user", JVal.obj [("id", Prim.num user._id), ("email", Prim.str user.email)])],
          cookies := [] }
        db

/-- The handler `UserController.changePassword`; `user` is `req.user`, attached by the
auth gate. -/
def changePassword (env : Env) (req : Req) (user : AuthUser) (db : Store) : Outcome :=
  if !truthy req.password || !truthy req.confirm_password then
    reply (messageRes 400 "All fields are required") db
  else if !strictEq req.password req.confirm_password then
    reply (messageRes 400 "Passwords do not match") db
  else
    match env.hashPassword (req.password.getD "") with
    | none => reply (messageRes 500 "Unable to change password") db
    | some newHashedPassword =>
      if !env.dbWriteOk then
        reply (messageRes 500 "Unable to change password") db
      else
        { res := statusRes 200 "success" "Password updated",
          db := updateById db user._id (fun d => { d with password := newHashedPassword }),
          mails := [], issued := [] }

/-- The handler `UserController.Loggeduser`; `user` is `req.user`. -/
def Loggeduser (_env : Env) (_req : Req) (user : AuthUser) (db : Store) : Outcome :=
  reply
    { statusCode := 200,
      body :=
        [("status", jstr "success"),
         ("user", JVal.obj
            [("id", Prim.num user._id),
             ("name", Prim.str user.name),
             ("email", Prim.str user.email),
             ("profileImage",
                Prim.str (if truthy user.profileImage
                  then imageUrl (user.profileImage.getD "") else ""))])],
      cookies := [] }
    db

/-- The handler `UserController.sendUserPasswordResetEmail`. -/
def sendUserPasswordResetEmail (env : Env) (req : Req) (db : Store) : Outcome :=
  if !truthy req.email then
    reply (messageRes 400 "Email is required") db
  else if !env.dbReadOk then
    reply (messageRes 500 "Something went wrong") db
  else
    match findOne db req.email with
    | none => reply (messageRes 404 "Email does not exist") db
    | some user =>
      { res := statusRes 200 "success" "Password reset link generated (check console)",
        db := db, mails := [], issued := [(user._id, some "1h")] }

/-- The handler `UserController.changePasswordByEmail`. -/
def changePasswordByEmail (env : Env) (req : Req) (db : Store) : Outcome :=
  if !truthy req.email || !truthy req.oldPassword || !truthy req.newPassword then
    reply (statusRes 400 "error" "All fields are required") db
  else if !env.dbReadOk then
    reply (statusRes 500 "error" "Server error") db
  else
    match findOne db req.email with
    | none => reply (statusRes 404 "error" "User not found") db
    | some user =>
      if !env.comparePassword (req.oldPassword.getD "") user.password then
        reply (statusRes 400 "error" "Old password is incorrect") db
      else
        match env.hashPassword (req.newPassword.getD "") with
        | none => reply (statusRes 500 "error" "Server error") db
        | some hashed =>
          if !env.dbWriteOk then
            reply (statusRes 500 "error" "Server error") db
          else
            { res := statusRes 200 "success" "Password updated successfully",
              db := updateById db user._id (fun d => { d with password := hashed }),
              mails := [], issued := [] }

/-- The handler `UserController.resetPasswordDirectly`. -/
def resetPasswordDirectly (env : Env) (req : Req) (db : Store) : Outcome :=
  if !truthy req.email || !truthy req.password || !truthy req.confirm_password then
    reply (statusRes 400 "error" "All fields are required") db
  else if !strictEq req.password req.confirm_password then
    reply (statusRes 400 "error" "Passwords do not match") db
  else if !env.dbReadOk then
    reply (statusRes 500 "error" "Password reset failed") db
  else
    match findOne db req.email with
    | none => reply (statusRes 404 "error" "User not found") db
    | some user =>
      match env.hashPassword (req.password.getD "") with
      | none => reply (statusRes 500 "error" "Password reset failed") db
      | some hashed =>
        if !env.dbWriteOk then
          reply (statusRes 500 "error" "Password reset failed") db
        else
          { res := statusRes 200 "success" "Password reset successful",
            db := updateById db user._id (fun d => { d with password := hashed }),
            mails := [], issued := [] }

/-- The handler `UserController.userPasswordReset`; `req.id` and `req.token` are the
route parameters.  The value returned by `verifyToken` is not bound to a name: only
whether the call throws matters. -/
def userPasswordReset (env : Env) (req : Req) (db : Store) : Outcome :=
  if !env.dbReadOk then
    reply (messageRes 400 "Invalid or expired token") db
  else
    match findById db req.id with
    | none => reply (messageRes 404 "User not found") db
    | some user =>
      match env.verifyToken req.token with
      | none => reply (messageRes 400 "Invalid or expired token") db
      | some _ =>
        if !truthy req.password || !truthy req.confirm_password then
          reply (messageRes 400 "All fields are required") db
        else if !strictEq req.password req.confirm_password then
          reply (messageRes 400 "Passwords do not match") db
        else
          match env.hashPassword (req.password.getD "") with
          | none => reply (messageRes 400 "Invalid or expired token") db
          | some hashed =>
            if !env.dbWriteOk then
              reply (messageRes 400 "Invalid or expired token") db
            else
              { res := statusRes 200 "success" "Password reset successful",
                db := updateById db user._id (fun d => { d with password := hashed }),
                mails := [], issued := [] }

/-! ## The auth gate (`protect`) and the protected routes -/

/-- The split `s.split(" ")` of JavaScript on a list of characters: the pieces between
the separators, empty pieces kept. -/
def splitChars (sep : Char) : List Char → List (List Char)
  | [] => [[]]
  | c :: cs =>
    if c = sep then [] :: splitChars sep cs
    else
      match splitChars sep cs with
      | [] => [[c]]
      | w :: ws => (c :: w) :: ws

/-- The token read from the `Authorization` header: the second piece of the header split
on spaces, taken only when the header starts with `"Bearer "`. -/
def bearerToken (authorization : Option String) : Option String :=
  match authorization with
  | none => none
  | some a =>
    if "Bearer ".data.isPrefixOf a.data then
      ((splitChars (Char.ofNat 32) a.data)[1]?).map String.mk
    else none

/-- Result of the auth gate: the downstream handler runs with `req.user`, or the gate
answers itself. -/
inductive Gate where
  | next (user : AuthUser)
  | deny (res : Res)
  deriving DecidableEq, Repr

/-- The middleware `protect`. -/
def protect (env : Env) (req : Req) (db : Store) : Gate :=
  let token := bearerToken req.authorization
  if !truthy token then
    Gate.deny (deniedRes "❌ No token, authorization denied")
  else
    match env.verifyToken (token.getD "") with
    | none => Gate.deny (deniedRes "❌ Not authorized, token failed")
    | some none => Gate.deny (deniedRes "❌ Invalid token payload")
    | some (some userId) =>
      if !env.dbReadOk then
        Gate.deny (deniedRes "❌ Not authorized, token failed")
      else
        match findById db userId with
        | none => Gate.deny (deniedRes "❌ User not found")
        | some user => Gate.next (selectNoPassword user)

/-- The route `POST /users/change-password`: `protect`, then `changePassword`. -/
def changePasswordRoute (env : Env) (req : Req) (db : Store) : Outcome :=
  match protect env req db with
  | Gate.deny r => reply r db
  | Gate.next user => changePassword env req user db

/-- The route `GET /users/logged-user`: `protect`, then `Loggeduser`. -/
def loggedUserRoute (env : Env) (req : Req) (db : Store) : Outcome :=
  match protect env req db with
  | Gate.deny r => reply r db
  | Gate.next user => Loggeduser env req user db

/-- The operations of the router in `routes/users.js`. -/
inductive Op where
  | register
  | verifyOtp
  | resendOtp
  | login
  | logout
  | sendResetPasswordEmail
  | passwordReset
  | resetPasswordDirect
  | checkEmail
  | changePasswordEmail
  | changePassword
  | loggedUser
  deriving DecidableEq, Repr

/-- The handler chain the router runs for an operation. -/
def handle (op : Op) (env : Env) (req : Req) (db : Store) : Outcome :=
  match op with
  | Op.register => userRegistration env req db
  | Op.verifyOtp => verifyEmailOTP env req db
  | Op.resendOtp => resendOTP env req db
  | Op.login => userLogin env req db
  | Op.logout => userLogout env req db
  | Op.sendResetPasswordEmail => sendUserPasswordResetEmail env req db
  | Op.passwordReset => userPasswordReset env req db
  | Op.resetPasswordDirect => resetPasswordDirectly env req db
  | Op.checkEmail => checkEmail env req db
  | Op.changePasswordEmail => changePasswordByEmail env req db
  | Op.changePassword => changePasswordRoute env req db
  | Op.loggedUser => loggedUserRoute env req db

/-- A call: an operation with the collaborators and the request it runs with. -/
structure Call where
  op : Op
  env : Env
  req : Req

/-- The store after a sequence of calls run one at a time. -/
def runCalls (calls : List Call) (db : Store) : Store :=
  calls.foldl (fun s c => (handle c.op c.env c.req s).db) db

/-- No two accounts of the store share an email. -/
def EmailsUnique (db : Store) : Prop := (db.map (fun u => u.email)).Nodup

/-- No two accounts of the store share an id (the `_id` index of the collection). -/
def IdsUnique (db : Store) : Prop := (db.map (fun u => u._id)).Nodup

instance decidableEmailsUnique (db : Store) : Decidable (EmailsUnique db) :=
  List.nodupDecidable (List.map (fun (u : User) => u.email) db)

instance decidableIdsUnique (db : Store) : Decidable (IdsUnique db) :=
  List.nodupDecidable (List.map (fun (u : User) => u._id) db)

/-- The three ways a store changes: not at all, by an update of one account that keeps
its id and email, or by appending a created account whose email was not registered. -/
def StoreStep (db db1 : Store) : Prop :=
  db1 = db ∨
  (∃ id f, (∀ d : User, (f d).email = d.email ∧ (f d)._id = d._id) ∧
    db1 = updateById db id f) ∨
  (∃ u : User, findOne db (some u.email) = none ∧ u._id = freshId db ∧ db1 = db ++ [u])

/-- Two stores that differ at most in the password hashes of their accounts. -/
def SameButPasswords (db1 db2 : Store) : Prop :=
  db1.map selectNoPassword = db2.map selectNoPassword

/-- Two stores that differ at most in password hashes which the hasher's verdicts do not
tell apart: account by account, the same data but the hash, and the same answer of
`comparePassword` for every password. -/
def SameVerdicts (env : Env) (db1 db2 : Store) : Prop :=
  List.Forall₂
    (fun u1 u2 => selectNoPassword u1 = selectNoPassword u2 ∧
      ∀ p, env.comparePassword p u1.password = env.comparePassword p u2.password)
    db1 db2

/-- The hasher assumption of the spec: a hash produced for `p` verifies `p` and no other
password. -/
def HasherSound (hash : String → Option String) (compare : String → String → Bool) : Prop :=
  ∀ p h, hash p = some h → compare p h = true ∧ ∀ p2, p2 ≠ p → compare p2 h = false

/-- Every verified account of the store has its OTP fields cleared. -/
def OtpCleared (db : Store) : Prop :=
  ∀ u ∈ db, u.isVerified = true → u.otp = none ∧ u.otpExpires = none

/-- The ways a store changes, as far as verification and OTP fields go: not at all; by
an update that keeps id, verification state and OTP fields (a password change); by an
update of a stored unverified account that leaves it unverified or verified with
cleared OTP fields (resend, verify); or by appending a created, unverified account. -/
def OtpStep (db db1 : Store) : Prop :=
  db1 = db ∨
  (∃ id f, (∀ d : User, (f d)._id = d._id ∧ (f d).isVerified = d.isVerified ∧
      (f d).otp = d.otp ∧ (f d).otpExpires = d.otpExpires) ∧
    db1 = updateById db id f) ∨
  (∃ user f, user ∈ db ∧ user.isVerified = false ∧ (∀ d : User, (f d)._id = d._id) ∧
    ((f user).isVerified = true → (f user).otp = none ∧ (f user).otpExpires = none) ∧
    db1 = updateById db user._id f) ∨
  (∃ u : User, u.isVerified = false ∧ u._id = freshId db ∧ db1 = db ++ [u])

/-! ## Sample collaborators and stores -/

/-- A sample hasher, token service, OTP source and healthy store collaborators:
the hash of `p` is `"h:" ++ p`, `"tokenA"` is a valid token of account 1 and `"tokenB"`
of account 2, every other token is rejected. -/
def sampleEnv (now : Nat) : Env :=
  { now := now,
    hashPassword := fun p => some ("h:" ++ p),
    comparePassword := fun p h => h == "h:" ++ p,
    generateToken := fun id ttl => "jwt-" ++ toString id ++ "-" ++ ttl.getD "default",
    verifyToken := fun t =>
      if t = "tokenA" then some (some 1) else if t = "tokenB" then some (some 2) else none,
    generateOTP := "654321",
    sendOTPEmail := fun _ _ => true,
    dbReadOk := true,
    dbWriteOk := true }

/-- Account 1: Alice, registered at time 0 and not yet verified. -/
def alice : User :=
  { _id := 1, name := "Alice", email := "a@x.com", password := "h:pw1234",
    otp := some "123456", otpExpires := some 3000000, isVerified := false,
    profileImage := none }

/-- Account 2: Bob, verified. -/
def bob : User :=
  { _id := 2, name := "Bob", email := "b@x.com", password := "h:bobpw",
    otp := none, otpExpires := none, isVerified := true,
    profileImage := some "uploads/bob.png" }

/-- A store with the two sample accounts. -/
def sampleStore : Store := [alice, bob]

/-- The sample store with other password hashes. -/
def rehashedStore : Store :=
  [{ alice with password := "$2b$10$aaaa" }, { bob with password := "$2b$10$bbbb" }]

/-- The sample collaborators with a hasher that throws. -/
def brokenHasherEnv (now : Nat) : Env :=
  { sampleEnv now with hashPassword := fun _ => none }

/-- The sample collaborators with a store whose reads and writes throw. -/
def storeDownEnv (now : Nat) : Env :=
  { sampleEnv now with dbReadOk := false, dbWriteOk := false }

/-- The sample collaborators with an OTP source that draws `"123456"` again. -/
def repeatOtpEnv (now : Nat) : Env :=
  { sampleEnv now with generateOTP := "123456" }

/-- A registration request of Carol. -/
def carolReq : Req :=
  { name := some "Carol", email := some "c@x.com", password := some "carolpw",
    confirm_password := some "carolpw", file := some "uploads/carol.png" }

/-- A session on the empty store: Carol registers, verifies her email with the mailed
code, asks for another code, logs in and asks for a reset link. -/
def carolCalls : List Call :=
  [{ op := Op.register, env := sampleEnv 10, req := carolReq },
   { op := Op.verifyOtp, env := sampleEnv 20,
     req := { email := some "c@x.com", otp := some "654321" } },
   { op := Op.resendOtp, env := sampleEnv 30, req := { email := some "c@x.com" } },
   { op := Op.login, env := sampleEnv 40,
     req := { email := some "c@x.com", password := some "carolpw" } },
   { op := Op.sendResetPasswordEmail, env := sampleEnv 50,
     req := { email := some "c@x.com" } }]

/-- Carol's account at the end of that session. -/
def carol : User :=
  { _id := 1, name := "Carol", email := "c@x.com", password := "h:carolpw",
    otp := none, otpExpires := none, isVerified := true,
    profileImage := some "uploads/carol.png" }

/-- A sample session: Carol registers, registers again, Alice verifies her email, asks
for another code and changes her password by email. -/
def sampleCalls : List Call :=
  [{ op := Op.register, env := sampleEnv 10, req := carolReq },
   { op := Op.register, env := sampleEnv 20, req := carolReq },
   { op := Op.verifyOtp, env := sampleEnv 30,
     req := { email := some "a@x.com", otp := some "123456" } },
   { op := Op.resendOtp, env := sampleEnv 40, req := { email := some "a@x.com" } },
   { op := Op.changePasswordEmail, env := sampleEnv 50,
     req := { email := some "a@x.com", oldPassword := some "pw1234",
              newPassword := some "pw5678" } }]

/-! ## Store lemmas -/

/-- An update that keeps emails keeps the list of emails of the store. -/
theorem updateById_map_email (db : Store) (id : Nat) (f : User → User)
    (hf : ∀ d, (f d).email = d.email) :
    (updateById db id f).map (fun u => u.email) = db.map (fun u => u.email) := by
  induction db with
  | nil => rfl
  | cons d ds ih =>
    unfold updateById
    split_ifs with h
    · simp [hf]
    · simp [ih]

/-- An update that keeps ids keeps the list of ids of the store. -/
theorem updateById_map_id (db : Store) (id : Nat) (f : User → User)
    (hf : ∀ d, (f d)._id = d._id) :
    (updateById db id f).map (fun u => u._id) = db.map (fun u => u._id) := by
  induction db with
  | nil => rfl
  | cons d ds ih =>
    unfold updateById
    split_ifs with h
    · simp [hf]
    · simp [ih]

/-- With unique ids, an update rewrites exactly the accounts carrying the id. -/
theorem updateById_eq_map (db : Store) (id : Nat) (f : User → User) (hu : IdsUnique db) :
    updateById db id f = db.map (fun d => if d._id = id then f d else d) := by
  induction db with
  | nil => rfl
  | cons d ds ih =>
    have hn : (d._id ∉ ds.map (fun u => u._id)) ∧ IdsUnique ds := by
      simpa [IdsUnique] using hu
    unfold updateById
    by_cases h : d._id = id
    · have hrest : ∀ x ∈ ds, (if x._id = id then f x else x) = x := by
        intro x hx
        have hx2 : x._id ≠ id := by
          intro hxe
          apply hn.1
          rw [h, ← hxe]
          exact List.mem_map_of_mem _ hx
        simp [hx2]
      simp only [h, if_true, List.map_cons, List.cons.injEq, true_and]
      exact ((List.map_congr_left hrest).trans (List.map_id ds)).symm
    · simp only [h, if_false, List.map_cons, ih hn.2]

/-- With unique ids, the account found by email is the one its own id updates. -/
theorem findOne_updateById (db : Store) (e : String) (user : User) (f : User → User)
    (hf : ∀ d, (f d).email = d.email) (hu : IdsUnique db)
    (hfind : findOne db (some e) = some user) :
    findOne (updateById db user._id f) (some e) = some (f user) := by
  induction db with
  | nil => simp [findOne] at hfind
  | cons d ds ih =>
    have hn : (d._id ∉ ds.map (fun u => u._id)) ∧ IdsUnique ds := by
      simpa [IdsUnique] using hu
    simp only [findOne, List.find?_cons] at hfind ih ⊢
    unfold updateById
    by_cases hd : d.email = e
    · simp only [hd, beq_self_eq_true, Option.some.injEq] at hfind
      subst hfind
      simp [hf, hd]
    · have hde : (d.email == e) = false := by simpa using hd
      rw [hde] at hfind
      have hmem : user ∈ ds := List.mem_of_find?_eq_some hfind
      have hne : d._id ≠ user._id := by
        intro h
        apply hn.1
        rw [h]
        exact List.mem_map_of_mem _ hmem
      simp only [hne, if_false, List.find?_cons, hde]
      exact ih hn.2 hfind

/-- A successful lookup by email names an email: the request carries one and the
account found has it. -/
theorem findOne_some_email (db : Store) (email : Option String) (user : User)
    (h : findOne db email = some user) : email = some user.email := by
  cases email with
  | none => simp [findOne] at h
  | some e =>
    have := List.find?_some h
    simp only [beq_iff_eq] at this
    rw [this]

/-! ## Reset by token -/

/-- C1, the code at the failing input: `userPasswordReset` only needs `verifyToken` not
to throw.  With `"tokenA"`, a valid token of account 1 (Alice), and the id of account 2
(Bob) in the path, the reset answers 200 and replaces the password hash of Bob. -/
theorem userPasswordReset_token_of_other_account :
    (sampleEnv 10).verifyToken "tokenA" = some (some 1) ∧
    findById sampleStore 2 = some bob ∧
    (userPasswordReset (sampleEnv 10)
        { id := 2, token := "tokenA", password := some "hacked",
          confirm_password := some "hacked" } sampleStore).res
      = statusRes 200 "success" "Password reset successful" ∧
    (userPasswordReset (sampleEnv 10)
        { id := 2, token := "tokenA", password := some "hacked",
          confirm_password := some "hacked" } sampleStore).db
      = [alice, { bob with password := "h:hacked" }] := by
  decide

/-! ## Verification by OTP -/

/-- The test `user.otp !== otp || user.otpExpires < Date.now()` is false exactly when the
supplied code is the stored one and the stored expiry is not earlier than `now`. -/
theorem otpCheck_eq_false (otp supplied : Option String) (expires : Option Nat) (now : Nat) :
    (!strictEq otp supplied || dateLt expires now) = false ↔
      (supplied = otp ∧ ∀ t, expires = some t → now ≤ t) := by
  unfold strictEq dateLt
  cases expires with
  | none =>
    simp only [Bool.or_false, Bool.not_eq_false', beq_iff_eq]
    constructor
    · intro h
      exact ⟨h.symm, fun t ht => by cases ht⟩
    · intro h
      exact h.1.symm
  | some t =>
    simp only [Bool.or_eq_false_iff, Bool.not_eq_false', beq_iff_eq, decide_eq_false_iff_not,
      not_lt, Option.some.injEq]
    constructor
    · rintro ⟨h1, h2⟩
      exact ⟨h1.symm, fun s hs => hs ▸ h2⟩
    · rintro ⟨h1, h2⟩
      exact ⟨h1.symm, h2 t rfl⟩

/-- The handler on an existing unverified account, once the lookup has answered. -/
theorem verifyEmailOTP_found (env : Env) (req : Req) (db : Store) (user : User)
    (hr : env.dbReadOk = true)
    (hfind : findOne db req.email = some user) (hv : user.isVerified = false) :
    verifyEmailOTP env req db =
      if (!strictEq user.otp req.otp || dateLt user.otpExpires env.now) = true then
        reply (messageRes 400 "Invalid or expired OTP") db
      else if env.dbWriteOk = true then
        { res := statusRes 200 "success" "Email verified successfully",
          db := updateById db user._id
            (fun d => { d with isVerified := true, otp := none, otpExpires := none }),
          mails := [], issued := [] }
      else reply (messageRes 500 "Internal server error") db := by
  unfold verifyEmailOTP
  simp only [hr, hfind, hv, Bool.not_true, Bool.false_eq_true, if_false]
  cases env.dbWriteOk <;> rfl

/-- Either the handler fails and leaves the store alone, or it answers 200 and has
rewritten the account found by email. -/
theorem verifyEmailOTP_cases (env : Env) (req : Req) (db : Store) :
    ((verifyEmailOTP env req db).res.statusCode ≠ 200 ∧ (verifyEmailOTP env req db).db = db) ∨
    (∃ user, findOne db req.email = some user ∧ user.isVerified = false ∧
      (verifyEmailOTP env req db).res = statusRes 200 "success" "Email verified successfully" ∧
      (verifyEmailOTP env req db).db = updateById db user._id
        (fun d => { d with isVerified := true, otp := none, otpExpires := none })) := by
  cases hr : env.dbReadOk with
  | false =>
    left
    simp [verifyEmailOTP, hr, reply, messageRes]
  | true =>
    cases hfind : findOne db req.email with
    | none =>
      left
      simp [verifyEmailOTP, hr, hfind, reply, messageRes]
    | some user =>
      cases hv : user.isVerified with
      | true =>
        left
        simp [verifyEmailOTP, hr, hfind, hv, reply, messageRes]
      | false =>
        rw [verifyEmailOTP_found env req db user hr hfind hv]
        cases hb : (!strictEq user.otp req.otp || dateLt user.otpExpires env.now) with
        | true =>
          left
          simp [reply, messageRes]
        | false =>
          cases hw : env.dbWriteOk with
          | false =>
            left
            simp [reply, messageRes]
          | true =>
            right
            exact ⟨user, rfl, hv, by simp, by simp⟩

/-- C2, counterexample: Alice's code `"123456"` expires at 3000000; presented at exactly
`now = 3000000` it is accepted. -/
theorem verifyEmailOTP_accepts_at_expiry :
    alice.otp = some "123456" ∧ alice.otpExpires = some 3000000 ∧
    (verifyEmailOTP (sampleEnv 3000000)
        { email := some "a@x.com", otp := some "123456" } sampleStore).res
      = statusRes 200 "success" "Email verified successfully" := by
  decide

/-- C2, amended: for an existing unverified account (store reads and writes not
throwing), verification succeeds if and only if the supplied code equals the stored
`otp` and the stored `otpExpires` is not earlier than `now` (`now ≤ otpExpires`; an unset
expiry is never earlier); in every other case the answer is 400 `Invalid or expired OTP`. -/
theorem verifyEmailOTP_succeeds_iff (env : Env) (req : Req) (db : Store) (user : User)
    (hr : env.dbReadOk = true) (hw : env.dbWriteOk = true)
    (hfind : findOne db req.email = some user) (hv : user.isVerified = false) :
    ((verifyEmailOTP env req db).res = statusRes 200 "success" "Email verified successfully"
        ↔ (req.otp = user.otp ∧ ∀ t, user.otpExpires = some t → env.now ≤ t)) ∧
    (¬ (req.otp = user.otp ∧ ∀ t, user.otpExpires = some t → env.now ≤ t) →
      (verifyEmailOTP env req db).res = messageRes 400 "Invalid or expired OTP") := by
  rw [verifyEmailOTP_found env req db user hr hfind hv]
  have hcond := otpCheck_eq_false user.otp req.otp user.otpExpires env.now
  cases hb : (!strictEq user.otp req.otp || dateLt user.otpExpires env.now) with
  | true =>
    have hn : ¬ (req.otp = user.otp ∧ ∀ t, user.otpExpires = some t → env.now ≤ t) := by
      intro hc
      have hf := hcond.mpr hc
      rw [hb] at hf
      cases hf
    simp only [if_true]
    refine ⟨⟨fun h => ?_, fun h => absurd h hn⟩, fun _ => rfl⟩
    have h2 : (400 : Nat) = 200 := congrArg Res.statusCode h
    exact absurd h2 (by decide)
  | false =>
    have hc := hcond.mp hb
    simp only [hw, if_true, Bool.false_eq_true, if_false]
    exact ⟨⟨fun _ => hc, fun _ => trivial⟩, fun h => absurd hc h⟩

/-- C2, witness: Alice, with the right code one millisecond before the expiry. -/
theorem verifyEmailOTP_succeeds_iff_witness :
    ((verifyEmailOTP (sampleEnv 2999999) { email := some "a@x.com", otp := some "123456" }
          sampleStore).res = statusRes 200 "success" "Email verified successfully"
        ↔ ((some "123456" : Option String) = alice.otp ∧
            ∀ t, alice.otpExpires = some t → 2999999 ≤ t)) ∧
    (¬ ((some "123456" : Option String) = alice.otp ∧
            ∀ t, alice.otpExpires = some t → 2999999 ≤ t) →
      (verifyEmailOTP (sampleEnv 2999999) { email := some "a@x.com", otp := some "123456" }
          sampleStore).res = messageRes 400 "Invalid or expired OTP") :=
  verifyEmailOTP_succeeds_iff (sampleEnv 2999999)
    { email := some "a@x.com", otp := some "123456" } sampleStore alice rfl rfl
    (by decide) rfl

/-- C3: in a store with unique ids, whenever `verifyEmailOTP` answers 200 the account
found by the email is afterwards stored with `isVerified = true` and `otp`, `otpExpires`
cleared, its id, name, email, password hash and profile image are the old ones, and the
store is the old store with that one account replaced; whenever it answers anything else
(404, 400, 500) the store is unchanged. -/
theorem verifyEmailOTP_postcondition (env : Env) (req : Req) (db : Store)
    (hu : IdsUnique db) :
    ((verifyEmailOTP env req db).res.statusCode = 200 →
      ∃ user after, findOne db req.email = some user ∧
        findOne (verifyEmailOTP env req db).db req.email = some after ∧
        after.isVerified = true ∧ after.otp = none ∧ after.otpExpires = none ∧
        after._id = user._id ∧ after.name = user.name ∧ after.email = user.email ∧
        after.password = user.password ∧ after.profileImage = user.profileImage ∧
        (verifyEmailOTP env req db).db
          = db.map (fun d => if d._id = user._id then after else d)) ∧
    ((verifyEmailOTP env req db).res.statusCode ≠ 200 →
      (verifyEmailOTP env req db).db = db) := by
  rcases verifyEmailOTP_cases env req db with ⟨hs, hdb⟩ | ⟨user, hfind, _, hres, hdb⟩
  · exact ⟨fun h => absurd h hs, fun _ => hdb⟩
  · refine ⟨fun _ => ?_, fun h => absurd (by rw [hres]; rfl) h⟩
    have he := findOne_some_email db req.email user hfind
    refine ⟨user, { user with isVerified := true, otp := none, otpExpires := none },
      hfind, ?_, rfl, rfl, rfl, rfl, rfl, rfl, rfl, rfl, ?_⟩
    · rw [hdb, he]
      rw [he] at hfind
      exact findOne_updateById db user.email user _ (fun _ => rfl) hu hfind
    · rw [hdb, updateById_eq_map db user._id _ hu]
      have hmem : user ∈ db := by
        rw [he] at hfind
        exact List.mem_of_find?_eq_some hfind
      apply List.map_congr_left
      intro d hd
      by_cases hid : d._id = user._id
      · have hdu : d = user := List.inj_on_of_nodup_map hu hd hmem hid
        simp [hdu]
      · simp [hid]

/-- C3, witness: Alice verifies at time 10 in the sample store. -/
theorem verifyEmailOTP_postcondition_witness :
    IdsUnique sampleStore ∧
    (verifyEmailOTP (sampleEnv 10) { email := some "a@x.com", otp := some "123456" }
        sampleStore).res.statusCode = 200 ∧
    (((verifyEmailOTP (sampleEnv 10) { email := some "a@x.com", otp := some "123456" }
        sampleStore).res.statusCode = 200 →
      ∃ user after,
        findOne sampleStore (some "a@x.com") = some user ∧
        findOne (verifyEmailOTP (sampleEnv 10)
          { email := some "a@x.com", otp := some "123456" } sampleStore).db
          (some "a@x.com") = some after ∧
        after.isVerified = true ∧ after.otp = none ∧ after.otpExpires = none ∧
        after._id = user._id ∧ after.name = user.name ∧ after.email = user.email ∧
        after.password = user.password ∧ after.profileImage = user.profileImage ∧
        (verifyEmailOTP (sampleEnv 10)
          { email := some "a@x.com", otp := some "123456" } sampleStore).db
          = sampleStore.map (fun d => if d._id = user._id then after else d)) ∧
    ((verifyEmailOTP (sampleEnv 10) { email := some "a@x.com", otp := some "123456" }
        sampleStore).res.statusCode ≠ 200 →
      (verifyEmailOTP (sampleEnv 10) { email := some "a@x.com", otp := some "123456" }
        sampleStore).db = sampleStore)) :=
  ⟨by decide, by decide,
    verifyEmailOTP_postcondition (sampleEnv 10)
      { email := some "a@x.com", otp := some "123456" } sampleStore (by decide)⟩

/-- C4: in a store with unique ids, once `verifyEmailOTP` has answered 200 for an
email, a following `verifyEmailOTP` for the same email, with any code, at any time and
with any collaborators, never answers 200 and leaves the store unchanged; when its
lookup does not throw, its answer is 400 `User already verified`. -/
theorem verifyEmailOTP_single_use (env env2 : Env) (req req2 : Req) (db : Store)
    (hu : IdsUnique db)
    (hfirst : (verifyEmailOTP env req db).res.statusCode = 200)
    (hemail : req2.email = req.email) :
    (verifyEmailOTP env2 req2 (verifyEmailOTP env req db).db).res.statusCode ≠ 200 ∧
    (env2.dbReadOk = true →
      (verifyEmailOTP env2 req2 (verifyEmailOTP env req db).db).res
        = messageRes 400 "User already verified") ∧
    (verifyEmailOTP env2 req2 (verifyEmailOTP env req db).db).db
      = (verifyEmailOTP env req db).db := by
  rcases verifyEmailOTP_cases env req db with ⟨hs, _⟩ | ⟨user, hfind, _, _, hdb⟩
  · exact absurd hfirst hs
  · have he := findOne_some_email db req.email user hfind
    have hafter : findOne (verifyEmailOTP env req db).db req2.email
        = some { user with isVerified := true, otp := none, otpExpires := none } := by
      rw [hdb, hemail, he]
      rw [he] at hfind
      exact findOne_updateById db user.email user _ (fun _ => rfl) hu hfind
    generalize (verifyEmailOTP env req db).db = db1 at hafter
    cases hr2 : env2.dbReadOk with
    | false => simp [verifyEmailOTP, hr2, reply, messageRes]
    | true => simp [verifyEmailOTP, hr2, hafter, reply, messageRes]

/-- C4, witness: Alice verifies at time 10, then presents the same code at time 20. -/
theorem verifyEmailOTP_single_use_witness :
    IdsUnique sampleStore ∧
    (verifyEmailOTP (sampleEnv 10) { email := some "a@x.com", otp := some "123456" }
        sampleStore).res.statusCode = 200 ∧
    ((verifyEmailOTP (sampleEnv 20) { email := some "a@x.com", otp := some "123456" }
        (verifyEmailOTP (sampleEnv 10) { email := some "a@x.com", otp := some "123456" }
          sampleStore).db).res.statusCode ≠ 200 ∧
    ((sampleEnv 20).dbReadOk = true →
      (verifyEmailOTP (sampleEnv 20) { email := some "a@x.com", otp := some "123456" }
        (verifyEmailOTP (sampleEnv 10) { email := some "a@x.com", otp := some "123456" }
          sampleStore).db).res = messageRes 400 "User already verified") ∧
    (verifyEmailOTP (sampleEnv 20) { email := some "a@x.com", otp := some "123456" }
        (verifyEmailOTP (sampleEnv 10) { email := some "a@x.com", otp := some "123456" }
          sampleStore).db).db
      = (verifyEmailOTP (sampleEnv 10) { email := some "a@x.com", otp := some "123456" }
          sampleStore).db) :=
  ⟨by decide, by decide,
    verifyEmailOTP_single_use (sampleEnv 10) (sampleEnv 20)
      { email := some "a@x.com", otp := some "123456" }
      { email := some "a@x.com", otp := some "123456" } sampleStore
      (by decide) (by decide) rfl⟩

/-! ## Login -/

/-- The login handler once the email and password are present and the lookup has
answered. -/
theorem userLogin_found (env : Env) (req : Req) (db : Store) (user : User)
    (hr : env.dbReadOk = true) (hemail : user.email ≠ "")
    (hp : truthy req.password = true) (hfind : findOne db req.email = some user) :
    userLogin env req db =
      if user.isVerified = false then
        reply (messageRes 403 "Please verify your email before login") db
      else if env.comparePassword (req.password.getD "") user.password = false then
        reply (messageRes 400 "Invalid credentials") db
      else
        { res :=
            { statusCode := 200,
              body :=
                [("status", jstr "success"),
                 ("message", jstr "Login successful"),
                 ("token", jstr (env.generateToken user._id none)),
                 ("user", JVal.obj
                    [("id", Prim.num user._id),
                     ("name", Prim.str user.name),
                     ("email", Prim.str user.email),
                     ("profileImage", optStr user.profileImage)])],
              cookies :=
                [{ name := "token", value := env.generateToken user._id none,
                   httpOnly := true, secure := some false,
                   maxAge := some (24 * 60 * 60 * 1000), expires := none,
                   sameSite := "Lax" }] },
          db := db, mails := [], issued := [(user._id, none)] } := by
  have he : truthy req.email = true := by
    rw [findOne_some_email db req.email user hfind]
    simpa [truthy] using hemail
  unfold userLogin
  simp only [he, hp, hr, hfind, Bool.not_true, Bool.or_self, Bool.false_eq_true, if_false]
  cases user.isVerified <;> cases env.comparePassword (req.password.getD "") user.password <;> rfl

/-- C5: for every registered account with `isVerified = false` (found by its non-empty
email, the lookup not throwing) and every password, matching the stored hash or not,
`userLogin` issues no token, sets no cookie, does not answer 200 and leaves the store
unchanged; whenever a password is supplied (non-empty) the answer is exactly the 403
`Please verify your email before login`. -/
theorem userLogin_unverified_forbidden (env : Env) (req : Req) (db : Store) (user : User)
    (hr : env.dbReadOk = true) (hemail : user.email ≠ "")
    (hfind : findOne db req.email = some user) (hv : user.isVerified = false) :
    (truthy req.password = true →
      (userLogin env req db).res = messageRes 403 "Please verify your email before login" ∧
      (userLogin env req db).res.statusCode = 403) ∧
    (userLogin env req db).res.statusCode ≠ 200 ∧
    (userLogin env req db).issued = [] ∧
    (userLogin env req db).res.cookies = [] ∧
    (userLogin env req db).res.body.lookup "token" = none ∧
    (userLogin env req db).db = db := by
  cases hp : truthy req.password with
  | true =>
    rw [userLogin_found env req db user hr hemail hp hfind, if_pos hv]
    exact ⟨fun _ => ⟨rfl, rfl⟩, by show (403 : Nat) ≠ 200; decide, rfl, rfl, rfl, rfl⟩
  | false =>
    have hout : userLogin env req db = reply (messageRes 400 "Email and password required") db := by
      unfold userLogin
      simp [hp]
    rw [hout]
    refine ⟨fun h => ?_, ?_, rfl, rfl, rfl, rfl⟩
    · cases h
    · show (400 : Nat) ≠ 200
      decide

/-- C5, witness: Alice is not verified; her login with her own password is answered
403. -/
theorem userLogin_unverified_forbidden_witness :
    alice.isVerified = false ∧
    (sampleEnv 10).comparePassword "pw1234" alice.password = true ∧
    (userLogin (sampleEnv 10) { email := some "a@x.com", password := some "pw1234" }
        sampleStore).res.statusCode = 403 ∧
    (userLogin (sampleEnv 10) { email := some "a@x.com", password := some "pw1234" }
        sampleStore).issued = [] ∧
    (userLogin (sampleEnv 10) { email := some "a@x.com", password := some "pw1234" }
        sampleStore).res.cookies = [] :=
  have h := userLogin_unverified_forbidden (sampleEnv 10)
    { email := some "a@x.com", password := some "pw1234" } sampleStore alice rfl
    (by decide) (by decide) rfl
  ⟨rfl, by decide, (h.1 (by decide)).2, h.2.2.1, h.2.2.2.1⟩

/-- C6, counterexample: Bob is verified; his login with a password that does not verify
is answered with status 400, not 401. -/
theorem userLogin_wrong_password_is_400 :
    bob.isVerified = true ∧
    (sampleEnv 10).comparePassword "wrong" bob.password = false ∧
    (userLogin (sampleEnv 10) { email := some "b@x.com", password := some "wrong" }
        sampleStore).res.statusCode = 400 ∧
    (userLogin (sampleEnv 10) { email := some "b@x.com", password := some "wrong" }
        sampleStore).res.statusCode ≠ 401 := by
  decide

/-- C6, amended: for every registered, verified account (found by its non-empty email,
the lookup not throwing) and every non-empty password that the hasher does not verify
against the stored hash, `userLogin` fails with HTTP status 400 `Invalid credentials`,
issues no token and sets no cookie. -/
theorem userLogin_wrong_password (env : Env) (req : Req) (db : Store) (user : User)
    (hr : env.dbReadOk = true) (hemail : user.email ≠ "")
    (hp : truthy req.password = true) (hfind : findOne db req.email = some user)
    (hv : user.isVerified = true)
    (hcmp : env.comparePassword (req.password.getD "") user.password = false) :
    (userLogin env req db).res = messageRes 400 "Invalid credentials" ∧
    (userLogin env req db).res.statusCode = 400 ∧
    (userLogin env req db).issued = [] ∧
    (userLogin env req db).res.cookies = [] ∧
    (userLogin env req db).res.body.lookup "token" = none := by
  rw [userLogin_found env req db user hr hemail hp hfind, if_neg (by simp [hv]), if_pos hcmp]
  exact ⟨rfl, rfl, rfl, rfl, rfl⟩

/-- C6, witness: Bob with the password `"wrong"`. -/
theorem userLogin_wrong_password_witness :
    (sampleEnv 10).comparePassword "wrong" bob.password = false ∧
    (userLogin (sampleEnv 10) { email := some "b@x.com", password := some "wrong" }
        sampleStore).res = messageRes 400 "Invalid credentials" ∧
    (userLogin (sampleEnv 10) { email := some "b@x.com", password := some "wrong" }
        sampleStore).res.statusCode = 400 ∧
    (userLogin (sampleEnv 10) { email := some "b@x.com", password := some "wrong" }
        sampleStore).issued = [] ∧
    (userLogin (sampleEnv 10) { email := some "b@x.com", password := some "wrong" }
        sampleStore).res.cookies = [] ∧
    (userLogin (sampleEnv 10) { email := some "b@x.com", password := some "wrong" }
        sampleStore).res.body.lookup "token" = none :=
  ⟨by decide,
    userLogin_wrong_password (sampleEnv 10)
      { email := some "b@x.com", password := some "wrong" } sampleStore bob rfl
      (by decide) (by decide) (by decide) rfl (by decide)⟩

/-- C7: for every registered, verified account (found by its non-empty email, the
lookup not throwing) and a non-empty password the hasher verifies against its stored
hash, `userLogin` answers 200, issues exactly one token, for that account's id with the
default lifetime, puts the same token in the JSON body and in the cookie `token`, which
is HTTP-only, SameSite `Lax`, with max age `24*60*60*1000` ms, returns the user summary
`(id, name, email, profileImage)` of that account and leaves the store unchanged. -/
theorem userLogin_success (env : Env) (req : Req) (db : Store) (user : User)
    (hr : env.dbReadOk = true) (hemail : user.email ≠ "")
    (hp : truthy req.password = true) (hfind : findOne db req.email = some user)
    (hv : user.isVerified = true)
    (hcmp : env.comparePassword (req.password.getD "") user.password = true) :
    (userLogin env req db).res.statusCode = 200 ∧
    (userLogin env req db).issued = [(user._id, none)] ∧
    (userLogin env req db).res.body.lookup "token"
      = some (jstr (env.generateToken user._id none)) ∧
    (userLogin env req db).res.cookies
      = [{ name := "token", value := env.generateToken user._id none, httpOnly := true,
           secure := some false, maxAge := some (24 * 60 * 60 * 1000), expires := none,
           sameSite := "Lax" }] ∧
    (userLogin env req db).res.body.lookup "user"
      = some (JVal.obj [("id", Prim.num user._id), ("name", Prim.str user.name),
          ("email", Prim.str user.email), ("profileImage", optStr user.profileImage)]) ∧
    (userLogin env req db).db = db := by
  rw [userLogin_found env req db user hr hemail hp hfind, if_neg (by simp [hv]),
    if_neg (by simp [hcmp])]
  exact ⟨rfl, rfl, rfl, rfl, rfl, rfl⟩

/-- C7, witness: Bob logs in with his password. -/
theorem userLogin_success_witness :
    bob.isVerified = true ∧
    (sampleEnv 10).comparePassword "bobpw" bob.password = true ∧
    (userLogin (sampleEnv 10) { email := some "b@x.com", password := some "bobpw" }
        sampleStore).res.statusCode = 200 ∧
    (userLogin (sampleEnv 10) { email := some "b@x.com", password := some "bobpw" }
        sampleStore).issued = [(bob._id, none)] ∧
    (userLogin (sampleEnv 10) { email := some "b@x.com", password := some "bobpw" }
        sampleStore).res.body.lookup "token"
      = some (jstr ((sampleEnv 10).generateToken bob._id none)) ∧
    (userLogin (sampleEnv 10) { email := some "b@x.com", password := some "bobpw" }
        sampleStore).res.cookies
      = [{ name := "token", value := (sampleEnv 10).generateToken bob._id none,
           httpOnly := true, secure := some false, maxAge := some (24 * 60 * 60 * 1000),
           expires := none, sameSite := "Lax" }] ∧
    (userLogin (sampleEnv 10) { email := some "b@x.com", password := some "bobpw" }
        sampleStore).res.body.lookup "user"
      = some (JVal.obj [("id", Prim.num bob._id), ("name", Prim.str bob.name),
          ("email", Prim.str bob.email), ("profileImage", optStr bob.profileImage)]) ∧
    (userLogin (sampleEnv 10) { email := some "b@x.com", password := some "bobpw" }
        sampleStore).db = sampleStore :=
  ⟨rfl, by decide,
    userLogin_success (sampleEnv 10)
      { email := some "b@x.com", password := some "bobpw" } sampleStore bob rfl
      (by decide) (by decide) (by decide) rfl (by decide)⟩

/-! ## How an operation can change the store -/

/-- Every stored id is below the id given to the next created account. -/
theorem lt_freshId (db : Store) (u : User) (h : u ∈ db) : u._id < freshId db := by
  unfold freshId
  induction db with
  | nil => cases h
  | cons d ds ih =>
    simp only [List.map_cons, List.foldr_cons]
    rcases List.mem_cons.mp h with rfl | hmem
    · have := le_max_left u._id (List.foldr max 0 (List.map (fun u => u._id) ds))
      omega
    · have h1 := ih hmem
      have h2 := le_max_right d._id (List.foldr max 0 (List.map (fun u => u._id) ds))
      omega

/-- The id given to a created account is carried by no stored account. -/
theorem freshId_not_mem (db : Store) : freshId db ∉ db.map (fun u => u._id) := by
  intro h
  obtain ⟨u, hu, he⟩ := List.mem_map.mp h
  have := lt_freshId db u hu
  omega

/-- Registration changes the store in one of the three ways. -/
theorem userRegistration_step (env : Env) (req : Req) (db : Store) :
    StoreStep db (userRegistration env req db).db := by
  unfold userRegistration
  by_cases h1 : (!truthy req.name || !truthy req.email || !truthy req.password
      || !truthy req.confirm_password) = true
  · rw [if_pos h1]
    exact Or.inl rfl
  rw [if_neg h1]
  by_cases h2 : (!strictEq req.password req.confirm_password) = true
  · rw [if_pos h2]
    exact Or.inl rfl
  rw [if_neg h2]
  by_cases h3 : (!env.dbReadOk) = true
  · rw [if_pos h3]
    exact Or.inl rfl
  rw [if_neg h3]
  have he : req.email = some (req.email.getD "") := by
    cases hreq : req.email with
    | none => simp [hreq, truthy] at h1
    | some e => rfl
  cases hfind : findOne db req.email with
  | some u => exact Or.inl rfl
  | none =>
    rw [he] at hfind
    cases hhash : env.hashPassword (req.password.getD "") with
    | none => exact Or.inl rfl
    | some hashed =>
      simp only
      by_cases h4 : (!env.dbWriteOk) = true
      · rw [if_pos h4]
        exact Or.inl rfl
      rw [if_neg h4]
      by_cases h5 : (!env.sendOTPEmail (req.email.getD "") env.generateOTP) = true
      · rw [if_pos h5]
        exact Or.inr (Or.inr ⟨_, hfind, rfl, rfl⟩)
      · rw [if_neg h5]
        exact Or.inr (Or.inr ⟨_, hfind, rfl, rfl⟩)

/-- Every operation of the router changes the store in one of the three ways. -/
theorem handle_step (op : Op) (env : Env) (req : Req) (db : Store) :
    StoreStep db (handle op env req db).db := by
  cases op
  case register => exact userRegistration_step env req db
  all_goals
    simp only [handle, verifyEmailOTP, resendOTP, userLogin, userLogout,
      sendUserPasswordResetEmail, userPasswordReset, resetPasswordDirectly, checkEmail,
      changePasswordByEmail, changePasswordRoute, loggedUserRoute, changePassword,
      Loggeduser, reply]
    repeat' split
    all_goals
      first
        | exact Or.inl rfl
        | (refine Or.inr (Or.inl ⟨_, _, ?_, rfl⟩)
           intro d
           exact ⟨rfl, rfl⟩)
/-! ## Registration -/

/-- C8: whenever name, email, password or confirm_password is missing or empty, or
password differs from confirm_password, `userRegistration` answers 400 (`All fields are
required` or `Passwords do not match`), whatever the collaborators do; the store is
unchanged, so no account is created, and no OTP message is dispatched. -/
theorem userRegistration_rejects_invalid (env : Env) (req : Req) (db : Store)
    (h : truthy req.name = false ∨ truthy req.email = false ∨ truthy req.password = false ∨
      truthy req.confirm_password = false ∨ req.password ≠ req.confirm_password) :
    (userRegistration env req db).res.statusCode = 400 ∧
    ((userRegistration env req db).res = messageRes 400 "All fields are required" ∨
      (userRegistration env req db).res = messageRes 400 "Passwords do not match") ∧
    (userRegistration env req db).db = db ∧
    (userRegistration env req db).mails = [] := by
  unfold userRegistration
  by_cases h1 : (!truthy req.name || !truthy req.email || !truthy req.password
      || !truthy req.confirm_password) = true
  · rw [if_pos h1]
    exact ⟨rfl, Or.inl rfl, rfl, rfl⟩
  · rw [if_neg h1]
    have h2 : (!strictEq req.password req.confirm_password) = true := by
      simp only [Bool.or_eq_true, Bool.not_eq_true', not_or, Bool.not_eq_false] at h1
      obtain ⟨⟨⟨hn, he⟩, hp⟩, hc⟩ := h1
      rcases h with h | h | h | h | h
      · rw [hn] at h; cases h
      · rw [he] at h; cases h
      · rw [hp] at h; cases h
      · rw [hc] at h; cases h
      · simpa [strictEq] using h
    rw [if_pos h2]
    exact ⟨rfl, Or.inr rfl, rfl, rfl⟩

/-- C8, witness: a registration whose confirmation differs from the password. -/
theorem userRegistration_rejects_invalid_witness :
    (some "carolpw" : Option String) ≠ some "carolpW" ∧
    (userRegistration (sampleEnv 10)
        { carolReq with confirm_password := some "carolpW" } sampleStore).res.statusCode
      = 400 ∧
    ((userRegistration (sampleEnv 10)
        { carolReq with confirm_password := some "carolpW" } sampleStore).res
        = messageRes 400 "All fields are required" ∨
      (userRegistration (sampleEnv 10)
        { carolReq with confirm_password := some "carolpW" } sampleStore).res
        = messageRes 400 "Passwords do not match") ∧
    (userRegistration (sampleEnv 10)
        { carolReq with confirm_password := some "carolpW" } sampleStore).db = sampleStore ∧
    (userRegistration (sampleEnv 10)
        { carolReq with confirm_password := some "carolpW" } sampleStore).mails = [] :=
  ⟨by decide,
    userRegistration_rejects_invalid (sampleEnv 10)
      { carolReq with confirm_password := some "carolpW" } sampleStore
      (Or.inr (Or.inr (Or.inr (Or.inr (by decide)))))⟩

/-- C10: for every valid registration (the four fields non-empty, confirm_password
equal to password, email not registered) whose collaborators do not throw, the store
afterwards is the old store followed by exactly one account, with a new id, the given
name and email, the password set to the value returned by `hashPassword`,
`isVerified = false`, `otp` the generated code, `otpExpires = now + 50*60*1000` (strictly
after `now`) and `profileImage` the path of the uploaded file or null; the answer is 201
with the id of the new account, and the code is mailed to the email. -/
theorem userRegistration_valid (env : Env) (req : Req) (db : Store)
    (name email password hashed : String)
    (hname : req.name = some name) (hname0 : name ≠ "")
    (hemail : req.email = some email) (hemail0 : email ≠ "")
    (hpw : req.password = some password) (hpw0 : password ≠ "")
    (hconfirm : req.confirm_password = some password)
    (hr : env.dbReadOk = true) (hnew : findOne db (some email) = none)
    (hhash : env.hashPassword password = some hashed)
    (hw : env.dbWriteOk = true) (hmail : env.sendOTPEmail email env.generateOTP = true) :
    (userRegistration env req db).db = db ++
      [{ _id := freshId db, name := name, email := email, password := hashed,
         otp := some env.generateOTP, otpExpires := some (env.now + 50 * 60 * 1000),
         isVerified := false, profileImage := req.file }] ∧
    freshId db ∉ db.map (fun u => u._id) ∧
    env.now < env.now + 50 * 60 * 1000 ∧
    (userRegistration env req db).res.statusCode = 201 ∧
    (userRegistration env req db).res.body.lookup "userId"
      = some (JVal.prim (Prim.num (freshId db))) ∧
    (userRegistration env req db).mails = [(email, env.generateOTP)] := by
  have hout : userRegistration env req db =
      { res :=
          { statusCode := 201,
            body :=
              [("status", jstr "success"),
               ("message", jstr "User registered. Please verify your email via OTP."),
               ("userId", JVal.prim (Prim.num (freshId db))),
               ("profileImage",
                  JVal.prim (if truthy req.file
                    then Prim.str (imageUrl (req.file.getD "")) else Prim.null))],
            cookies := [] },
        db := db ++
          [{ _id := freshId db, name := name, email := email, password := hashed,
             otp := some env.generateOTP, otpExpires := some (env.now + 50 * 60 * 1000),
             isVerified := false, profileImage := req.file }],
        mails := [(email, env.generateOTP)],
        issued := [] } := by
    unfold userRegistration
    simp [hname, hemail, hpw, hconfirm, truthy, strictEq, hname0, hemail0, hpw0, hr, hnew,
      hhash, hw, hmail]
  rw [hout]
  exact ⟨rfl, freshId_not_mem db, by omega, rfl, rfl, rfl⟩

/-- C10, witness: Carol registers at time 10 in the sample store and gets the id 3. -/
theorem userRegistration_valid_witness :
    findOne sampleStore (some "c@x.com") = none ∧
    (userRegistration (sampleEnv 10) carolReq sampleStore).db = sampleStore ++
      [{ _id := freshId sampleStore, name := "Carol", email := "c@x.com",
         password := "h:carolpw", otp := some (sampleEnv 10).generateOTP,
         otpExpires := some ((sampleEnv 10).now + 50 * 60 * 1000),
         isVerified := false, profileImage := carolReq.file }] ∧
    freshId sampleStore ∉ sampleStore.map (fun u => u._id) ∧
    (sampleEnv 10).now < (sampleEnv 10).now + 50 * 60 * 1000 ∧
    (userRegistration (sampleEnv 10) carolReq sampleStore).res.statusCode = 201 ∧
    (userRegistration (sampleEnv 10) carolReq sampleStore).res.body.lookup "userId"
      = some (JVal.prim (Prim.num (freshId sampleStore))) ∧
    (userRegistration (sampleEnv 10) carolReq sampleStore).mails
      = [("c@x.com", (sampleEnv 10).generateOTP)] :=
  ⟨by decide,
    userRegistration_valid (sampleEnv 10) carolReq sampleStore "Carol" "c@x.com" "carolpw"
      "h:carolpw" rfl (by decide) rfl (by decide) rfl (by decide) rfl rfl (by decide)
      (by decide) rfl rfl⟩

/-! ## Email uniqueness -/

/-- Each of the three ways a store changes keeps emails unique. -/
theorem storeStep_emailsUnique (db db1 : Store) (h : StoreStep db db1)
    (hu : EmailsUnique db) : EmailsUnique db1 := by
  rcases h with rfl | ⟨id, f, hf, rfl⟩ | ⟨u, hnone, _, rfl⟩
  · exact hu
  · unfold EmailsUnique
    rw [updateById_map_email db id f (fun d => (hf d).1)]
    exact hu
  · unfold EmailsUnique at hu ⊢
    rw [List.map_append, List.map_cons, List.map_nil]
    apply List.Nodup.append hu (List.nodup_singleton _)
    rw [List.disjoint_singleton]
    intro hmem
    obtain ⟨x, hx, hxe⟩ := List.mem_map.mp hmem
    have := List.find?_eq_none.mp hnone x hx
    simp [hxe] at this

/-- Emails stay unique along a sequence of calls. -/
theorem runCalls_emailsUnique (calls : List Call) (db : Store) (hu : EmailsUnique db) :
    EmailsUnique (runCalls calls db) := by
  induction calls generalizing db with
  | nil => exact hu
  | cons c cs ih =>
    exact ih _ (storeStep_emailsUnique db _ (handle_step c.op c.env c.req db) hu)

/-- C9: starting from a store in which no two accounts share an email, no two accounts
share an email after any sequence of operations of the router run one at a time, in
particular after any single operation; and a registration with all fields valid and an
email that is already registered (the lookup not throwing) is answered 400
`Email already registered`, leaves the store unchanged and dispatches no message. -/
theorem emailsUnique_invariant (calls : List Call) (db : Store) (hu : EmailsUnique db) :
    EmailsUnique (runCalls calls db) ∧
    (∀ op env req, EmailsUnique (handle op env req db).db) ∧
    (∀ (env : Env) (req : Req) (db2 : Store) (user : User),
      truthy req.name = true → truthy req.email = true → truthy req.password = true →
      req.confirm_password = req.password → env.dbReadOk = true →
      findOne db2 req.email = some user →
      (userRegistration env req db2).res = messageRes 400 "Email already registered" ∧
      (userRegistration env req db2).db = db2 ∧
      (userRegistration env req db2).mails = []) := by
  refine ⟨runCalls_emailsUnique calls db hu,
    fun op env req => storeStep_emailsUnique db _ (handle_step op env req db) hu, ?_⟩
  intro env req db2 user hn he hp hc hr hfind
  unfold userRegistration
  simp [hn, he, hp, hc, strictEq, hr, hfind, reply]

/-- C9, witness: the sample session on the sample store; Carol's second registration is
the conflict. -/
theorem emailsUnique_invariant_witness :
    EmailsUnique sampleStore ∧
    EmailsUnique (runCalls sampleCalls sampleStore) ∧
    (runCalls sampleCalls sampleStore).length = 3 ∧
    (userRegistration (sampleEnv 20) carolReq
        (userRegistration (sampleEnv 10) carolReq sampleStore).db).res
      = messageRes 400 "Email already registered" :=
  have h := emailsUnique_invariant sampleCalls sampleStore (by decide)
  ⟨by decide, h.1, by decide,
    (h.2.2 (sampleEnv 20) carolReq (userRegistration (sampleEnv 10) carolReq sampleStore).db
      { _id := 3, name := "Carol", email := "c@x.com", password := "h:carolpw",
        otp := some "654321", otpExpires := some 3000010, isVerified := false,
        profileImage := some "uploads/carol.png" }
      (by decide) (by decide) (by decide) rfl rfl (by decide)).1⟩

/-! ## Resending the OTP -/

/-- The resend handler on an existing unverified account, once the lookup has answered
and the write goes through. -/
theorem resendOTP_found (env : Env) (req : Req) (db : Store) (user : User)
    (hr : env.dbReadOk = true) (hfind : findOne db req.email = some user)
    (hv : user.isVerified = false) (hw : env.dbWriteOk = true) :
    resendOTP env req db =
      if env.sendOTPEmail user.email env.generateOTP = true then
        { res := statusRes 200 "success" "OTP resent successfully",
          db := updateById db user._id
            (fun d => { d with otp := some env.generateOTP,
                               otpExpires := some (env.now + 10 * 60 * 1000) }),
          mails := [(user.email, env.generateOTP)], issued := [] }
      else
        { res := messageRes 500 "Internal server error",
          db := updateById db user._id
            (fun d => { d with otp := some env.generateOTP,
                               otpExpires := some (env.now + 10 * 60 * 1000) }),
          mails := [], issued := [] } := by
  have he := findOne_some_email db req.email user hfind
  have hfind2 : findOne db (some user.email) = some user := he ▸ hfind
  unfold resendOTP
  simp only [hr, hv, hw, he, hfind2, Option.getD_some, Bool.not_true, Bool.false_eq_true,
    if_false]
  cases env.sendOTPEmail user.email env.generateOTP <;> rfl

/-- C11: with the lookup not throwing and unique ids, `resendOTP` answers 404 for an
unknown email and 400 for an already verified account, both with the store unchanged;
for an unverified account (the write not throwing) it overwrites `otp` with the freshly
generated code and sets `otpExpires = now + 10*60*1000`, which is strictly before the
`now + 50*60*1000` bound at registration, changes no other field of that account and no
other account, and, when the mailer does not throw, answers 200 and mails the code. -/
theorem resendOTP_spec (env : Env) (req : Req) (db : Store)
    (hr : env.dbReadOk = true) (hu : IdsUnique db) :
    (findOne db req.email = none →
      (resendOTP env req db).res = messageRes 404 "User not found" ∧
      (resendOTP env req db).db = db) ∧
    (∀ user, findOne db req.email = some user → user.isVerified = true →
      (resendOTP env req db).res = messageRes 400 "User already verified" ∧
      (resendOTP env req db).db = db) ∧
    (∀ user, findOne db req.email = some user → user.isVerified = false →
      env.dbWriteOk = true →
      (resendOTP env req db).db = db.map (fun d => if d._id = user._id then
          { user with otp := some env.generateOTP,
                      otpExpires := some (env.now + 10 * 60 * 1000) } else d) ∧
      findOne (resendOTP env req db).db req.email =
        some { user with otp := some env.generateOTP,
                         otpExpires := some (env.now + 10 * 60 * 1000) } ∧
      env.now + 10 * 60 * 1000 < env.now + 50 * 60 * 1000 ∧
      (env.sendOTPEmail user.email env.generateOTP = true →
        (resendOTP env req db).res = statusRes 200 "success" "OTP resent successfully" ∧
        (resendOTP env req db).mails = [(user.email, env.generateOTP)])) := by
  refine ⟨fun hnone => ?_, fun user hfind hv => ?_, fun user hfind hv hw => ?_⟩
  · unfold resendOTP
    simp [hr, hnone, reply]
  · unfold resendOTP
    simp [hr, hfind, hv, reply]
  · have he := findOne_some_email db req.email user hfind
    have hmem : user ∈ db := by
      rw [he] at hfind
      exact List.mem_of_find?_eq_some hfind
    have hdb : (resendOTP env req db).db = updateById db user._id
        (fun d => { d with otp := some env.generateOTP,
                           otpExpires := some (env.now + 10 * 60 * 1000) }) := by
      rw [resendOTP_found env req db user hr hfind hv hw]
      split <;> rfl
    refine ⟨?_, ?_, by omega, fun hmail => ?_⟩
    · rw [hdb, updateById_eq_map db user._id _ hu]
      apply List.map_congr_left
      intro d hd
      by_cases hid : d._id = user._id
      · have hdu : d = user := List.inj_on_of_nodup_map hu hd hmem hid
        simp [hdu]
      · simp [hid]
    · rw [hdb, he]
      rw [he] at hfind
      exact findOne_updateById db user.email user _ (fun _ => rfl) hu hfind
    · rw [resendOTP_found env req db user hr hfind hv hw, if_pos hmail]
      exact ⟨rfl, rfl⟩

/-- C11, witness: Alice asks for another code at time 40. -/
theorem resendOTP_spec_witness :
    IdsUnique sampleStore ∧
    (resendOTP (sampleEnv 40) { email := some "a@x.com" } sampleStore).db
      = sampleStore.map (fun d => if d._id = alice._id then
          { alice with otp := some (sampleEnv 40).generateOTP,
                       otpExpires := some ((sampleEnv 40).now + 10 * 60 * 1000) } else d) ∧
    findOne (resendOTP (sampleEnv 40) { email := some "a@x.com" } sampleStore).db
        (some "a@x.com")
      = some { alice with otp := some (sampleEnv 40).generateOTP,
                          otpExpires := some ((sampleEnv 40).now + 10 * 60 * 1000) } ∧
    (sampleEnv 40).now + 10 * 60 * 1000 < (sampleEnv 40).now + 50 * 60 * 1000 ∧
    ((sampleEnv 40).sendOTPEmail alice.email (sampleEnv 40).generateOTP = true →
      (resendOTP (sampleEnv 40) { email := some "a@x.com" } sampleStore).res
        = statusRes 200 "success" "OTP resent successfully" ∧
      (resendOTP (sampleEnv 40) { email := some "a@x.com" } sampleStore).mails
        = [(alice.email, (sampleEnv 40).generateOTP)]) :=
  ⟨by decide,
    (resendOTP_spec (sampleEnv 40) { email := some "a@x.com" } sampleStore rfl
      (by decide)).2.2 alice (by decide) rfl rfl⟩

/-- A resend that answers 200 has found an unverified account and rewritten its OTP
fields. -/
theorem resendOTP_success (env : Env) (req : Req) (db : Store)
    (h : (resendOTP env req db).res.statusCode = 200) :
    ∃ user, findOne db req.email = some user ∧ user.isVerified = false ∧
      (resendOTP env req db).db = updateById db user._id
        (fun d => { d with otp := some env.generateOTP,
                           otpExpires := some (env.now + 10 * 60 * 1000) }) := by
  cases hr : env.dbReadOk with
  | false => simp [resendOTP, hr, reply, messageRes] at h
  | true =>
    cases hfind : findOne db req.email with
    | none => simp [resendOTP, hr, hfind, reply, messageRes] at h
    | some user =>
      cases hv : user.isVerified with
      | true => simp [resendOTP, hr, hfind, hv, reply, messageRes] at h
      | false =>
        cases hw : env.dbWriteOk with
        | false => simp [resendOTP, hr, hfind, hv, hw, reply, messageRes] at h
        | true =>
          refine ⟨user, rfl, hv, ?_⟩
          rw [resendOTP_found env req db user hr hfind hv hw]
          split <;> rfl

/-- C12, counterexample: the code regenerated for Alice is `"123456"` again, the code she
already had; after the successful resend, verification with that previous code
succeeds. -/
theorem verifyEmailOTP_after_repeated_code :
    alice.otp = some "123456" ∧
    (resendOTP (repeatOtpEnv 40) { email := some "a@x.com" } sampleStore).res.statusCode
      = 200 ∧
    (verifyEmailOTP (sampleEnv 50) { email := some "a@x.com", otp := some "123456" }
        (resendOTP (repeatOtpEnv 40) { email := some "a@x.com" } sampleStore).db).res
      = statusRes 200 "success" "Email verified successfully" := by
  decide

/-- C12, amended: in a store with unique ids, for an unverified account with bound code
`c`, after a `resendOTP` for that account that answers 200 and whose freshly generated
code differs from `c`, `verifyEmailOTP` with the previous code `c` never answers 200, at
whatever time and with whatever collaborators, and leaves the store unchanged; when
its lookup does not throw the answer is 400 `Invalid or expired OTP`. -/
theorem resendOTP_invalidates_previous (env env2 : Env) (req req2 : Req) (db : Store)
    (user : User) (c : String) (hu : IdsUnique db)
    (hfind : findOne db req.email = some user) (_hc : user.otp = some c)
    (hres : (resendOTP env req db).res.statusCode = 200)
    (hnew : env.generateOTP ≠ c)
    (hemail : req2.email = req.email) (hotp : req2.otp = some c) :
    (verifyEmailOTP env2 req2 (resendOTP env req db).db).res.statusCode ≠ 200 ∧
    (env2.dbReadOk = true →
      (verifyEmailOTP env2 req2 (resendOTP env req db).db).res
        = messageRes 400 "Invalid or expired OTP") ∧
    (verifyEmailOTP env2 req2 (resendOTP env req db).db).db = (resendOTP env req db).db := by
  obtain ⟨user2, hfind2, hv, hdb⟩ := resendOTP_success env req db hres
  rw [hfind] at hfind2
  cases hfind2
  have he := findOne_some_email db req.email user hfind
  have hafter : findOne (resendOTP env req db).db req2.email
      = some { user with otp := some env.generateOTP,
                         otpExpires := some (env.now + 10 * 60 * 1000) } := by
    rw [hdb, hemail, he]
    rw [he] at hfind
    exact findOne_updateById db user.email user _ (fun _ => rfl) hu hfind
  generalize (resendOTP env req db).db = db1 at hafter
  have hne : strictEq (some env.generateOTP) (some c) = false := by
    simp [strictEq, hnew]
  cases hr2 : env2.dbReadOk with
  | false => simp [verifyEmailOTP, hr2, reply, messageRes]
  | true =>
    simp [verifyEmailOTP, hr2, hafter, hv, hotp, hne, reply, messageRes]

/-- C12, witness: Alice's code `"123456"` is replaced by `"654321"` at time 40 and then
presented at time 50. -/
theorem resendOTP_invalidates_previous_witness :
    (resendOTP (sampleEnv 40) { email := some "a@x.com" } sampleStore).res.statusCode
      = 200 ∧
    (sampleEnv 40).generateOTP ≠ "123456" ∧
    (verifyEmailOTP (sampleEnv 50) { email := some "a@x.com", otp := some "123456" }
        (resendOTP (sampleEnv 40) { email := some "a@x.com" } sampleStore).db).res.statusCode
      ≠ 200 ∧
    ((sampleEnv 50).dbReadOk = true →
      (verifyEmailOTP (sampleEnv 50) { email := some "a@x.com", otp := some "123456" }
          (resendOTP (sampleEnv 40) { email := some "a@x.com" } sampleStore).db).res
        = messageRes 400 "Invalid or expired OTP") ∧
    (verifyEmailOTP (sampleEnv 50) { email := some "a@x.com", otp := some "123456" }
        (resendOTP (sampleEnv 40) { email := some "a@x.com" } sampleStore).db).db
      = (resendOTP (sampleEnv 40) { email := some "a@x.com" } sampleStore).db :=
  ⟨by decide, by decide,
    resendOTP_invalidates_previous (sampleEnv 40) (sampleEnv 50)
      { email := some "a@x.com" } { email := some "a@x.com", otp := some "123456" }
      sampleStore alice "123456" (by decide) (by decide) rfl (by decide) (by decide) rfl rfl⟩

/-! ## The auth gate -/

/-- C13: `protect` invokes the downstream handler if and only if the `Authorization`
header carries a non-empty bearer token, `verifyToken` accepts it and yields a `userId`,
and the lookup of that id answers with an account; in every other case the gate answers
a 401 itself, and then the routes `/change-password` and `/logged-user` answer 401
without running their handlers: the store is unchanged. -/
theorem protect_next_iff (env : Env) (req : Req) (db : Store) :
    ((∃ user, protect env req db = Gate.next user) ↔
      ∃ token id account, bearerToken req.authorization = some token ∧ token ≠ "" ∧
        env.verifyToken token = some (some id) ∧ env.dbReadOk = true ∧
        findById db id = some account) ∧
    ((¬ ∃ user, protect env req db = Gate.next user) →
      ∃ m, protect env req db = Gate.deny (deniedRes m) ∧ (deniedRes m).statusCode = 401) ∧
    ((¬ ∃ user, protect env req db = Gate.next user) →
      (changePasswordRoute env req db).res.statusCode = 401 ∧
      (changePasswordRoute env req db).db = db ∧
      (loggedUserRoute env req db).res.statusCode = 401 ∧
      (loggedUserRoute env req db).db = db) := by
  have hcases : (∃ token id account, bearerToken req.authorization = some token ∧ token ≠ "" ∧
        env.verifyToken token = some (some id) ∧ env.dbReadOk = true ∧
        findById db id = some account ∧
        protect env req db = Gate.next (selectNoPassword account)) ∨
      ((¬ ∃ token id account, bearerToken req.authorization = some token ∧ token ≠ "" ∧
        env.verifyToken token = some (some id) ∧ env.dbReadOk = true ∧
        findById db id = some account) ∧
        ∃ m, protect env req db = Gate.deny (deniedRes m)) := by
    unfold protect
    cases htok : bearerToken req.authorization with
    | none =>
      right
      exact ⟨by simp, _, by simp [truthy]; rfl⟩
    | some token =>
      by_cases hempty : token = ""
      · right
        exact ⟨by simp [hempty], _, by simp [truthy, hempty]; rfl⟩
      · cases hver : env.verifyToken token with
        | none =>
          right
          exact ⟨by simp [hver], _, by simp [truthy, hempty, hver]; rfl⟩
        | some payload =>
          cases payload with
          | none =>
            right
            exact ⟨by simp [hver], _, by simp [truthy, hempty, hver]; rfl⟩
          | some id =>
            cases hr : env.dbReadOk with
            | false =>
              right
              exact ⟨by simp, _, by simp [truthy, hempty, hver, hr]; rfl⟩
            | true =>
              cases hfind : findById db id with
              | none =>
                right
                exact ⟨by simp [hver, hfind], _, by simp [truthy, hempty, hver, hr, hfind]; rfl⟩
              | some account =>
                left
                exact ⟨token, id, account, rfl, hempty, hver, rfl, hfind,
                  by simp [truthy, hempty, hver, hr, hfind]⟩
  rcases hcases with ⟨token, id, account, h1, h2, h3, h4, h5, hnext⟩ | ⟨hno, m, hdeny⟩
  · refine ⟨⟨fun _ => ⟨token, id, account, h1, h2, h3, h4, h5⟩, fun _ => ⟨_, hnext⟩⟩,
      fun h => absurd ⟨_, hnext⟩ h, fun h => absurd ⟨_, hnext⟩ h⟩
  · have hnn : ¬ ∃ user, protect env req db = Gate.next user := by
      rintro ⟨user, hu⟩
      rw [hdeny] at hu
      cases hu
    refine ⟨⟨fun h => absurd h hnn, fun h => absurd h hno⟩, fun _ => ⟨m, hdeny, rfl⟩, fun _ => ?_⟩
    simp only [changePasswordRoute, loggedUserRoute, hdeny]
    exact ⟨rfl, rfl, rfl, rfl⟩

/-- C13, witness: Bob's token opens the gate. -/
theorem protect_next_iff_witness :
    ∃ user, protect (sampleEnv 10) { authorization := some "Bearer tokenB" } sampleStore
      = Gate.next user :=
  (protect_next_iff (sampleEnv 10) { authorization := some "Bearer tokenB" }
    sampleStore).1.mpr ⟨"tokenB", 2, bob, by decide, by decide, by decide, rfl, by decide⟩

/-! ## The password hash stays inside -/

/-- The lookup by email sees the same account, up to its hash, in both stores. -/
theorem sameButPasswords_findOne (db1 db2 : Store) (h : SameButPasswords db1 db2)
    (email : Option String) :
    (findOne db1 email).map selectNoPassword = (findOne db2 email).map selectNoPassword := by
  cases email with
  | none => rfl
  | some e =>
    have key : ∀ db : Store, (findOne db (some e)).map selectNoPassword
        = (db.map selectNoPassword).find? (fun a => a.email == e) := by
      intro db
      rw [List.find?_map]
      rfl
    rw [key db1, key db2, h]

/-- The lookup by id sees the same account, up to its hash, in both stores. -/
theorem sameButPasswords_findById (db1 db2 : Store) (h : SameButPasswords db1 db2)
    (id : Nat) :
    (findById db1 id).map selectNoPassword = (findById db2 id).map selectNoPassword := by
  have key : ∀ db : Store, (findById db id).map selectNoPassword
      = (db.map selectNoPassword).find? (fun a => a._id == id) := by
    intro db
    rw [List.find?_map]
    rfl
  rw [key db1, key db2, h]

/-- Both stores give the same id to the next created account. -/
theorem sameButPasswords_freshId (db1 db2 : Store) (h : SameButPasswords db1 db2) :
    freshId db1 = freshId db2 := by
  have key : ∀ db : Store, db.map (fun u => u._id)
      = (db.map selectNoPassword).map (fun a => a._id) := by
    intro db
    rw [List.map_map]
    rfl
  unfold freshId
  rw [key db1, key db2, h]

/-- Equal projections agree on every field but the password hash. -/
theorem selectNoPassword_eq (u1 u2 : User) (h : selectNoPassword u1 = selectNoPassword u2) :
    u1._id = u2._id ∧ u1.name = u2.name ∧ u1.email = u2.email ∧ u1.otp = u2.otp ∧
    u1.otpExpires = u2.otpExpires ∧ u1.isVerified = u2.isVerified ∧
    u1.profileImage = u2.profileImage := by
  simpa [selectNoPassword] using h

/-- The lookup by email fails in both stores or finds accounts that agree up to the
hash. -/
theorem sameButPasswords_found (db1 db2 : Store) (h : SameButPasswords db1 db2)
    (email : Option String) :
    (findOne db1 email = none ∧ findOne db2 email = none) ∨
    (∃ u1 u2, findOne db1 email = some u1 ∧ findOne db2 email = some u2 ∧
      selectNoPassword u1 = selectNoPassword u2) := by
  have hm := sameButPasswords_findOne db1 db2 h email
  cases h1 : findOne db1 email with
  | none =>
    cases h2 : findOne db2 email with
    | none => exact Or.inl ⟨rfl, rfl⟩
    | some u2 => simp [h1, h2] at hm
  | some u1 =>
    cases h2 : findOne db2 email with
    | none => simp [h1, h2] at hm
    | some u2 =>
      rw [h1, h2] at hm
      exact Or.inr ⟨u1, u2, rfl, rfl, by simpa using hm⟩

/-- The gate cannot tell the two stores apart. -/
theorem sameButPasswords_protect (env : Env) (req : Req) (db1 db2 : Store)
    (h : SameButPasswords db1 db2) : protect env req db1 = protect env req db2 := by
  unfold protect
  simp only
  split
  · rfl
  · split
    · rfl
    · rfl
    · rename_i userId _
      split
      · rfl
      · have hm := sameButPasswords_findById db1 db2 h userId
        cases h1 : findById db1 userId with
        | none =>
          cases h2 : findById db2 userId with
          | none => rfl
          | some u2 => simp [h1, h2] at hm
        | some u1 =>
          cases h2 : findById db2 userId with
          | none => simp [h1, h2] at hm
          | some u2 =>
            rw [h1, h2] at hm
            simp only [Option.map_some', Option.some.injEq] at hm
            simp only [hm]



/-- A search that does not read the hash fails in both stores or finds accounts that
agree up to the hash and on every verdict. -/
theorem sameVerdicts_find (env : Env) (db1 db2 : Store) (h : SameVerdicts env db1 db2)
    (q : AuthUser → Bool) :
    (db1.find? (fun u => q (selectNoPassword u)) = none ∧
      db2.find? (fun u => q (selectNoPassword u)) = none) ∨
    (∃ u1 u2, db1.find? (fun u => q (selectNoPassword u)) = some u1 ∧
      db2.find? (fun u => q (selectNoPassword u)) = some u2 ∧
      selectNoPassword u1 = selectNoPassword u2 ∧
      ∀ p, env.comparePassword p u1.password = env.comparePassword p u2.password) := by
  unfold SameVerdicts at h
  induction h with
  | nil => exact Or.inl ⟨rfl, rfl⟩
  | @cons a b l1 l2 hab _ ih =>
    simp only [List.find?_cons, ← hab.1]
    cases q (selectNoPassword a) with
    | true => exact Or.inr ⟨a, b, rfl, rfl, hab.1, hab.2⟩
    | false => exact ih

/-- The lookup by email in stores with the same verdicts. -/
theorem sameVerdicts_findOne (env : Env) (db1 db2 : Store) (h : SameVerdicts env db1 db2)
    (email : Option String) :
    (findOne db1 email = none ∧ findOne db2 email = none) ∨
    (∃ u1 u2, findOne db1 email = some u1 ∧ findOne db2 email = some u2 ∧
      selectNoPassword u1 = selectNoPassword u2 ∧
      ∀ p, env.comparePassword p u1.password = env.comparePassword p u2.password) := by
  cases email with
  | none => exact Or.inl ⟨rfl, rfl⟩
  | some e => exact sameVerdicts_find env db1 db2 h (fun a => a.email == e)

/-- The lookup by id in stores with the same verdicts. -/
theorem sameVerdicts_findById (env : Env) (db1 db2 : Store) (h : SameVerdicts env db1 db2)
    (id : Nat) :
    (findById db1 id = none ∧ findById db2 id = none) ∨
    (∃ u1 u2, findById db1 id = some u1 ∧ findById db2 id = some u2 ∧
      selectNoPassword u1 = selectNoPassword u2 ∧
      ∀ p, env.comparePassword p u1.password = env.comparePassword p u2.password) :=
  sameVerdicts_find env db1 db2 h (fun a => a._id == id)

/-- Stores with the same verdicts differ at most in hashes. -/
theorem sameVerdicts_sameButPasswords (env : Env) (db1 db2 : Store)
    (h : SameVerdicts env db1 db2) : SameButPasswords db1 db2 := by
  unfold SameVerdicts at h
  unfold SameButPasswords
  induction h with
  | nil => rfl
  | cons hab _ ih => simp only [List.map_cons, hab.1, ih]

/-- No operation of the router tells apart two stores with the same verdicts. -/
theorem sameVerdicts_handle (env : Env) (req : Req) (db1 db2 : Store)
    (h : SameVerdicts env db1 db2) (op : Op) :
    (handle op env req db1).res = (handle op env req db2).res := by
  have hsame := sameVerdicts_sameButPasswords env db1 db2 h
  have hp := sameButPasswords_protect env req db1 db2 hsame
  have hfresh := sameButPasswords_freshId db1 db2 hsame
  cases op
  case changePassword =>
    simp only [handle, changePasswordRoute, hp]
    cases protect env req db2 with
    | deny r => rfl
    | next user =>
      simp only [changePassword]
      repeat' (first | rfl | split)
  case loggedUser =>
    simp only [handle, loggedUserRoute, hp]
    cases protect env req db2 <;> rfl
  case logout => rfl
  case passwordReset =>
    simp only [handle, userPasswordReset]
    rcases sameVerdicts_findById env db1 db2 h req.id with ⟨h1, h2⟩ | ⟨u1, u2, h1, h2, hs, hc⟩
    · simp only [h1, h2]
      repeat' (first | rfl | split)
    · obtain ⟨hid, hname, hemail, hotp, hexp, hver, himg⟩ := selectNoPassword_eq u1 u2 hs
      simp only [h1, h2, hid]
      repeat' (first | rfl | split)
  all_goals
    simp only [handle, userRegistration, verifyEmailOTP, resendOTP, userLogin,
      sendUserPasswordResetEmail, resetPasswordDirectly, checkEmail, changePasswordByEmail,
      hfresh]
    rcases sameVerdicts_findOne env db1 db2 h req.email with
      ⟨h1, h2⟩ | ⟨u1, u2, h1, h2, hs, hc⟩
    · simp only [h1, h2]
      repeat' (first | rfl | split)
    · obtain ⟨hid, hname, hemail, hotp, hexp, hver, himg⟩ := selectNoPassword_eq u1 u2 hs
      simp only [h1, h2, hid, hname, hemail, hotp, hexp, hver, himg, hc]
      repeat' (first | rfl | split)

/-- C14: for two stores that differ at most in password hashes, `checkEmail`, the gate
(so the identity attached to the request), the current-user route and `userRegistration`
give identical answers, and two successful logins give identical answers; and for every
operation of the router the answer is identical whenever the two stores differ only in
hashes on which `comparePassword` gives the same verdicts: the hash reaches an answer
only through the verdict of the comparison. -/
theorem password_hash_not_returned (env : Env) (req : Req) (db1 db2 : Store)
    (h : SameButPasswords db1 db2) :
    (checkEmail env req db1).res = (checkEmail env req db2).res ∧
    protect env req db1 = protect env req db2 ∧
    (loggedUserRoute env req db1).res = (loggedUserRoute env req db2).res ∧
    (userRegistration env req db1).res = (userRegistration env req db2).res ∧
    ((userLogin env req db1).res.statusCode = 200 →
      (userLogin env req db2).res.statusCode = 200 →
      (userLogin env req db1).res = (userLogin env req db2).res) ∧
    (SameVerdicts env db1 db2 →
      ∀ op, (handle op env req db1).res = (handle op env req db2).res) := by
  have hp := sameButPasswords_protect env req db1 db2 h
  refine ⟨?_, hp, ?_, ?_, ?_, fun hv op => sameVerdicts_handle env req db1 db2 hv op⟩
  · unfold checkEmail
    rcases sameButPasswords_found db1 db2 h req.email with ⟨h1, h2⟩ | ⟨u1, u2, h1, h2, hs⟩
    · simp only [h1, h2]
      split_ifs <;> rfl
    · obtain ⟨hid, _, hemail, _⟩ := selectNoPassword_eq u1 u2 hs
      simp only [h1, h2, hid, hemail]
      split_ifs <;> rfl
  · unfold loggedUserRoute
    rw [hp]
    cases protect env req db2 <;> rfl
  · unfold userRegistration
    rw [sameButPasswords_freshId db1 db2 h]
    rcases sameButPasswords_found db1 db2 h req.email with ⟨h1, h2⟩ | ⟨u1, u2, h1, h2, hs⟩
    · simp only [h1, h2]
      split_ifs <;> first | rfl | (split <;> rfl)
    · simp only [h1, h2]
      split_ifs <;> rfl
  · intro hs1 hs2
    rcases sameButPasswords_found db1 db2 h req.email with ⟨h1, h2⟩ | ⟨u1, u2, h1, h2, hs⟩
    · simp only [userLogin, h1, h2]
      split_ifs <;> rfl
    · obtain ⟨hid, hname, hemail, _, _, hver, himg⟩ := selectNoPassword_eq u1 u2 hs
      simp only [userLogin, h1, h2, hid, hname, hemail, hver, himg] at hs1 hs2 ⊢
      split_ifs at hs1 hs2 ⊢
      all_goals first
        | rfl
        | exact absurd (show (400 : Nat) = 200 from hs1) (by decide)
        | exact absurd (show (400 : Nat) = 200 from hs2) (by decide)

/-- C14, witness: the sample store and the same accounts with other hashes. -/
theorem password_hash_not_returned_witness :
    SameButPasswords sampleStore rehashedStore ∧ sampleStore ≠ rehashedStore ∧
    (checkEmail (sampleEnv 10) { email := some "b@x.com", authorization := some "Bearer tokenB" }
        sampleStore).res
      = (checkEmail (sampleEnv 10)
          { email := some "b@x.com", authorization := some "Bearer tokenB" }
          rehashedStore).res ∧
    protect (sampleEnv 10) { email := some "b@x.com", authorization := some "Bearer tokenB" }
        sampleStore
      = protect (sampleEnv 10)
          { email := some "b@x.com", authorization := some "Bearer tokenB" } rehashedStore ∧
    (loggedUserRoute (sampleEnv 10)
        { email := some "b@x.com", authorization := some "Bearer tokenB" } sampleStore).res
      = (loggedUserRoute (sampleEnv 10)
          { email := some "b@x.com", authorization := some "Bearer tokenB" }
          rehashedStore).res :=
  have h := password_hash_not_returned (sampleEnv 10)
    { email := some "b@x.com", authorization := some "Bearer tokenB" } sampleStore
    rehashedStore rfl
  ⟨rfl, by decide, h.1, h.2.1, h.2.2.1⟩

/-! ## Changing the password -/

/-- The account found by id is the one an update by that id rewrites. -/
theorem findById_updateById (db : Store) (id : Nat) (account : User) (f : User → User)
    (hf : ∀ d, (f d)._id = d._id) (hfind : findById db id = some account) :
    findById (updateById db id f) id = some (f account) := by
  induction db with
  | nil => simp [findById] at hfind
  | cons d ds ih =>
    simp only [findById, List.find?_cons] at hfind ih ⊢
    unfold updateById
    by_cases hd : d._id = id
    · simp only [hd, beq_self_eq_true, Option.some.injEq] at hfind
      subst hfind
      simp [hf, hd]
    · have hde : (d._id == id) = false := by simpa using hd
      rw [hde] at hfind
      simp only [hd, if_false, List.find?_cons, hde]
      exact ih hfind

/-- An account found by id carries that id. -/
theorem findById_some_id (db : Store) (id : Nat) (account : User)
    (h : findById db id = some account) : account._id = id := by
  have := List.find?_some h
  simpa using this

/-- When the gate lets a request through, `req.user` is a stored account, found by its
id, without its password hash. -/
theorem protect_next_account (env : Env) (req : Req) (db : Store) (user : AuthUser)
    (h : protect env req db = Gate.next user) :
    ∃ account, findById db user._id = some account ∧ selectNoPassword account = user := by
  unfold protect at h
  simp only at h
  split at h
  · cases h
  · split at h
    · cases h
    · cases h
    · rename_i userId _
      split at h
      · cases h
      · cases hfind : findById db userId with
        | none => simp [hfind] at h
        | some account =>
          simp only [hfind, Gate.next.injEq] at h
          have hid := findById_some_id db userId account hfind
          refine ⟨account, ?_, h⟩
          rw [← h]
          show findById db account._id = some account
          rw [hid]
          exact hfind

/-- C15: for a request that passed the gate with identity `user`, in a store with
unique ids: if password or confirm_password is missing or empty, or the two differ,
`/change-password` answers 400 and the store is unchanged; otherwise (hasher and write
not throwing) it answers 200 and replaces the password hash of exactly the account with
the id of `user`, the one the gate resolved, by `hashPassword(password)`, leaving its
other fields and every other account unchanged; and the old password plays no part:
whatever `oldPassword` the request carries, the outcome is the same. -/
theorem changePassword_spec (env : Env) (req : Req) (db : Store) (user : AuthUser)
    (hu : IdsUnique db) (hgate : protect env req db = Gate.next user) :
    ((truthy req.password = false ∨ truthy req.confirm_password = false ∨
        req.password ≠ req.confirm_password) →
      (changePasswordRoute env req db).res.statusCode = 400 ∧
      (changePasswordRoute env req db).db = db) ∧
    (∀ pw hashed, req.password = some pw → pw ≠ "" → req.confirm_password = some pw →
      env.hashPassword pw = some hashed → env.dbWriteOk = true →
      (changePasswordRoute env req db).res = statusRes 200 "success" "Password updated" ∧
      (changePasswordRoute env req db).db
        = db.map (fun d => if d._id = user._id then { d with password := hashed } else d) ∧
      ∃ account, findById db user._id = some account ∧ selectNoPassword account = user ∧
        findById (changePasswordRoute env req db).db user._id
          = some { account with password := hashed }) ∧
    (∀ old, changePasswordRoute env { req with oldPassword := old } db
      = changePasswordRoute env req db) := by
  refine ⟨fun hbad => ?_, fun pw hashed hpw hpw0 hconfirm hhash hw => ?_, fun old => rfl⟩
  · simp only [changePasswordRoute, hgate, changePassword]
    by_cases h1 : (!truthy req.password || !truthy req.confirm_password) = true
    · rw [if_pos h1]
      exact ⟨rfl, rfl⟩
    · rw [if_neg h1]
      have h2 : (!strictEq req.password req.confirm_password) = true := by
        simp only [Bool.or_eq_true, Bool.not_eq_true', not_or, Bool.not_eq_false] at h1
        rcases hbad with h | h | h
        · rw [h1.1] at h; cases h
        · rw [h1.2] at h; cases h
        · simpa [strictEq] using h
      rw [if_pos h2]
      exact ⟨rfl, rfl⟩
  · obtain ⟨account, hfind, hsel⟩ := protect_next_account env req db user hgate
    have hout : changePasswordRoute env req db =
        { res := statusRes 200 "success" "Password updated",
          db := updateById db user._id (fun d => { d with password := hashed }),
          mails := [], issued := [] } := by
      simp [changePasswordRoute, hgate, changePassword, hpw, hconfirm, truthy, strictEq, hpw0,
        hhash, hw]
    rw [hout]
    refine ⟨rfl, updateById_eq_map db user._id _ hu, account, hfind, hsel, ?_⟩
    exact findById_updateById db user._id account _ (fun _ => rfl) hfind

/-- C15, witness: Bob changes his password with his token. -/
theorem changePassword_spec_witness :
    IdsUnique sampleStore ∧
    protect (sampleEnv 10)
        { authorization := some "Bearer tokenB", password := some "newpw",
          confirm_password := some "newpw" } sampleStore
      = Gate.next (selectNoPassword bob) ∧
    (changePasswordRoute (sampleEnv 10)
        { authorization := some "Bearer tokenB", password := some "newpw",
          confirm_password := some "newpw" } sampleStore).res
      = statusRes 200 "success" "Password updated" ∧
    (changePasswordRoute (sampleEnv 10)
        { authorization := some "Bearer tokenB", password := some "newpw",
          confirm_password := some "newpw" } sampleStore).db
      = sampleStore.map (fun d => if d._id = (selectNoPassword bob)._id
          then { d with password := "h:newpw" } else d) :=
  have h := (changePassword_spec (sampleEnv 10)
    { authorization := some "Bearer tokenB", password := some "newpw",
      confirm_password := some "newpw" } sampleStore (selectNoPassword bob)
    (by decide) (by decide)).2.1 "newpw" "h:newpw" rfl (by decide) rfl (by decide) rfl
  ⟨by decide, by decide, h.1, h.2.1⟩

/-! ## Changing the password by email -/

/-- C16, counterexample: Bob's password is changed by email with an old password that
does not verify; the answer carries status 400, not 401. -/
theorem changePasswordByEmail_mismatch_is_400 :
    (sampleEnv 10).comparePassword "wrong" bob.password = false ∧
    (changePasswordByEmail (sampleEnv 10)
        { email := some "b@x.com", oldPassword := some "wrong", newPassword := some "new" }
        sampleStore).res = statusRes 400 "error" "Old password is incorrect" ∧
    (changePasswordByEmail (sampleEnv 10)
        { email := some "b@x.com", oldPassword := some "wrong", newPassword := some "new" }
        sampleStore).res.statusCode ≠ 401 := by
  decide

/-- C16, amended: for a request with the three fields non-empty, the lookup not
throwing and unique ids, `changePasswordByEmail` answers 404 for an unknown email and
400 `Old password is incorrect` when oldPassword does not verify against the stored
hash, in both cases leaving the store unchanged; when the account exists and oldPassword
verifies (hasher and write not throwing) the hash is replaced by
`hashPassword(newPassword)`; and the store changes only when the account exists and
oldPassword verifies. -/
theorem changePasswordByEmail_spec (env : Env) (req : Req) (db : Store)
    (email old new : String) (hu : IdsUnique db) (hr : env.dbReadOk = true)
    (hemail : req.email = some email) (hemail0 : email ≠ "")
    (hold : req.oldPassword = some old) (hold0 : old ≠ "")
    (hnew : req.newPassword = some new) (hnew0 : new ≠ "") :
    (findOne db (some email) = none →
      (changePasswordByEmail env req db).res = statusRes 404 "error" "User not found" ∧
      (changePasswordByEmail env req db).db = db) ∧
    (∀ user, findOne db (some email) = some user →
      env.comparePassword old user.password = false →
      (changePasswordByEmail env req db).res
        = statusRes 400 "error" "Old password is incorrect" ∧
      (changePasswordByEmail env req db).db = db) ∧
    (∀ user hashed, findOne db (some email) = some user →
      env.comparePassword old user.password = true →
      env.hashPassword new = some hashed → env.dbWriteOk = true →
      (changePasswordByEmail env req db).res
        = statusRes 200 "success" "Password updated successfully" ∧
      (changePasswordByEmail env req db).db
        = db.map (fun d => if d._id = user._id then { d with password := hashed } else d) ∧
      findOne (changePasswordByEmail env req db).db (some email)
        = some { user with password := hashed }) ∧
    ((changePasswordByEmail env req db).db ≠ db →
      ∃ user, findOne db (some email) = some user ∧
        env.comparePassword old user.password = true) := by
  refine ⟨fun hnone => ?_, fun user hfind hcmp => ?_, fun user hashed hfind hcmp hhash hw => ?_,
    fun hchg => ?_⟩
  · simp [changePasswordByEmail, hemail, hold, hnew, truthy, hemail0, hold0, hnew0, hr, hnone,
      reply]
  · simp [changePasswordByEmail, hemail, hold, hnew, truthy, hemail0, hold0, hnew0, hr, hfind,
      hcmp, reply]
  · have hout : changePasswordByEmail env req db =
        { res := statusRes 200 "success" "Password updated successfully",
          db := updateById db user._id (fun d => { d with password := hashed }),
          mails := [], issued := [] } := by
      simp [changePasswordByEmail, hemail, hold, hnew, truthy, hemail0, hold0, hnew0, hr,
        hfind, hcmp, hhash, hw]
    rw [hout]
    refine ⟨rfl, updateById_eq_map db user._id _ hu, ?_⟩
    have he := findOne_some_email db (some email) user hfind
    simp only [Option.some.injEq] at he
    rw [he] at hfind ⊢
    exact findOne_updateById db user.email user _ (fun _ => rfl) hu hfind
  · cases hfind : findOne db (some email) with
    | none =>
      exfalso
      apply hchg
      simp [changePasswordByEmail, hemail, hold, hnew, truthy, hemail0, hold0, hnew0, hr,
        hfind, reply]
    | some user =>
      cases hcmp : env.comparePassword old user.password with
      | false =>
        exfalso
        apply hchg
        simp [changePasswordByEmail, hemail, hold, hnew, truthy, hemail0, hold0, hnew0, hr,
          hfind, hcmp, reply]
      | true => exact ⟨user, rfl, hcmp⟩

/-- C16, witness: Bob with an old password that does not verify. -/
theorem changePasswordByEmail_spec_witness :
    IdsUnique sampleStore ∧
    (sampleEnv 10).comparePassword "wrong" bob.password = false ∧
    (changePasswordByEmail (sampleEnv 10)
        { email := some "b@x.com", oldPassword := some "wrong", newPassword := some "new" }
        sampleStore).res = statusRes 400 "error" "Old password is incorrect" ∧
    (changePasswordByEmail (sampleEnv 10)
        { email := some "b@x.com", oldPassword := some "wrong", newPassword := some "new" }
        sampleStore).db = sampleStore :=
  ⟨by decide, by decide,
    (changePasswordByEmail_spec (sampleEnv 10)
      { email := some "b@x.com", oldPassword := some "wrong", newPassword := some "new" }
      sampleStore "b@x.com" "wrong" "new" (by decide) rfl rfl (by decide) rfl (by decide)
      rfl (by decide)).2.1 bob (by decide) (by decide)⟩

/-! ## Direct reset -/

/-- C17, counterexample: a direct reset for Alice's email with the empty new password
given twice is answered 400 `All fields are required` and leaves the store unchanged. -/
theorem resetPasswordDirectly_empty_password :
    findOne sampleStore (some "a@x.com") = some alice ∧
    (resetPasswordDirectly (sampleEnv 10)
        { email := some "a@x.com", password := some "", confirm_password := some "" }
        sampleStore).res = statusRes 400 "error" "All fields are required" ∧
    (resetPasswordDirectly (sampleEnv 10)
        { email := some "a@x.com", password := some "", confirm_password := some "" }
        sampleStore).res.statusCode ≠ 200 ∧
    (resetPasswordDirectly (sampleEnv 10)
        { email := some "a@x.com", password := some "", confirm_password := some "" }
        sampleStore).db = sampleStore := by
  decide

/-- C17, amended: for every existing (non-empty) email and every non-empty new password
`newpw`, with no collaborator throwing and unique ids, `resetPasswordDirectly(email,
newpw, newpw)` answers 200 and replaces that account's password hash by
`hashPassword(newpw)`, leaving its verification state, OTP fields and other fields and
every other account unchanged; no authorization header, token or old password plays a
part: the outcome is the same whatever the request carries there; and every request
whose password is missing or empty is answered 400 `All fields are required` with the
store unchanged. -/
theorem resetPasswordDirectly_spec (env : Env) (req : Req) (db : Store)
    (email newpw hashed : String) (user : User) (hu : IdsUnique db)
    (hr : env.dbReadOk = true) (hw : env.dbWriteOk = true)
    (hemail : req.email = some email) (hemail0 : email ≠ "")
    (hpw : req.password = some newpw) (hpw0 : newpw ≠ "")
    (hconfirm : req.confirm_password = some newpw)
    (hfind : findOne db (some email) = some user)
    (hhash : env.hashPassword newpw = some hashed) :
    (resetPasswordDirectly env req db).res
      = statusRes 200 "success" "Password reset successful" ∧
    (resetPasswordDirectly env req db).db
      = db.map (fun d => if d._id = user._id then { d with password := hashed } else d) ∧
    findOne (resetPasswordDirectly env req db).db (some email)
      = some { user with password := hashed } ∧
    (∀ authorization token old,
      resetPasswordDirectly env
          { req with authorization := authorization, token := token, oldPassword := old } db
        = resetPasswordDirectly env req db) ∧
    (∀ req2 : Req, truthy req2.password = false →
      (resetPasswordDirectly env req2 db).res
        = statusRes 400 "error" "All fields are required" ∧
      (resetPasswordDirectly env req2 db).db = db) := by
  have hempty : ∀ req2 : Req, truthy req2.password = false →
      (resetPasswordDirectly env req2 db).res
        = statusRes 400 "error" "All fields are required" ∧
      (resetPasswordDirectly env req2 db).db = db := by
    intro req2 h2
    simp [resetPasswordDirectly, h2, reply]
  have hout : resetPasswordDirectly env req db =
      { res := statusRes 200 "success" "Password reset successful",
        db := updateById db user._id (fun d => { d with password := hashed }),
        mails := [], issued := [] } := by
    simp [resetPasswordDirectly, hemail, hpw, hconfirm, truthy, strictEq, hemail0, hpw0, hr,
      hfind, hhash, hw]
  rw [hout]
  refine ⟨rfl, updateById_eq_map db user._id _ hu, ?_, fun _ _ _ => hout, hempty⟩
  have he := findOne_some_email db (some email) user hfind
  simp only [Option.some.injEq] at he
  rw [he] at hfind ⊢
  exact findOne_updateById db user.email user _ (fun _ => rfl) hu hfind

/-- C17, witness: Alice's password is reset by anyone who knows her email. -/
theorem resetPasswordDirectly_spec_witness :
    findOne sampleStore (some "a@x.com") = some alice ∧
    (resetPasswordDirectly (sampleEnv 10)
        { email := some "a@x.com", password := some "newpw",
          confirm_password := some "newpw" } sampleStore).res
      = statusRes 200 "success" "Password reset successful" ∧
    (resetPasswordDirectly (sampleEnv 10)
        { email := some "a@x.com", password := some "newpw",
          confirm_password := some "newpw" } sampleStore).db
      = sampleStore.map
          (fun d => if d._id = alice._id then { d with password := "h:newpw" } else d) ∧
    findOne (resetPasswordDirectly (sampleEnv 10)
        { email := some "a@x.com", password := some "newpw",
          confirm_password := some "newpw" } sampleStore).db (some "a@x.com")
      = some { alice with password := "h:newpw" } :=
  have h := resetPasswordDirectly_spec (sampleEnv 10)
    { email := some "a@x.com", password := some "newpw", confirm_password := some "newpw" }
    sampleStore "a@x.com" "newpw" "h:newpw" alice (by decide) rfl rfl rfl (by decide) rfl
    (by decide) rfl (by decide) (by decide)
  ⟨by decide, h.1, h.2.1, h.2.2.1⟩

/-! ## Failures of the collaborators -/

/-- C18, the code at the failing input: with a valid token of Bob and a hasher that
throws, or a store that throws, `userPasswordReset` answers 400
`Invalid or expired token`, while `resetPasswordDirectly` answers the same failures
with 500. -/
theorem userPasswordReset_internal_failure_is_400 :
    (brokenHasherEnv 10).verifyToken "tokenB" = some (some 2) ∧
    (brokenHasherEnv 10).hashPassword "newpw" = none ∧
    (userPasswordReset (brokenHasherEnv 10)
        { id := 2, token := "tokenB", password := some "newpw",
          confirm_password := some "newpw" } sampleStore).res
      = messageRes 400 "Invalid or expired token" ∧
    (userPasswordReset (storeDownEnv 10)
        { id := 2, token := "tokenB", password := some "newpw",
          confirm_password := some "newpw" } sampleStore).res
      = messageRes 400 "Invalid or expired token" ∧
    (resetPasswordDirectly (brokenHasherEnv 10)
        { email := some "b@x.com", password := some "newpw",
          confirm_password := some "newpw" } sampleStore).res.statusCode = 500 ∧
    (resetPasswordDirectly (storeDownEnv 10)
        { email := some "b@x.com", password := some "newpw",
          confirm_password := some "newpw" } sampleStore).res.statusCode = 500 := by
  decide

/-! ## The response envelope -/

/-- C19, counterexample: a registration without fields is answered with a body that has
a `message` and no `status`; the answer of the auth gate has none either; the 200 answer
of the current-user route has a `status` and no `message`. -/
theorem response_without_status_or_message :
    (userRegistration (sampleEnv 10) {} sampleStore).res.body
      = [("message", jstr "All fields are required")] ∧
    (userRegistration (sampleEnv 10) {} sampleStore).res.body.lookup "status" = none ∧
    (loggedUserRoute (sampleEnv 10) {} sampleStore).res.body.lookup "status" = none ∧
    (loggedUserRoute (sampleEnv 10) { authorization := some "Bearer tokenB" }
        sampleStore).res.statusCode = 200 ∧
    (loggedUserRoute (sampleEnv 10) { authorization := some "Bearer tokenB" }
        sampleStore).res.body.lookup "message" = none := by
  decide

/-- Every answer the gate gives itself is a 401 `success: false` with a message. -/
theorem protect_deny_shape (env : Env) (req : Req) (db : Store) (r : Res)
    (h : protect env req db = Gate.deny r) : ∃ m, r = deniedRes m := by
  unfold protect at h
  simp only at h
  repeat' split at h
  all_goals first
    | (cases h; exact ⟨_, rfl⟩)
    | cases h

/-- The envelope of the answers, operation by operation. -/
theorem envelope_by_operation (op : Op) (env : Env) (req : Req) (db : Store) :
    ((handle op env req db).res.body.lookup "message" = none →
      op = Op.loggedUser ∧ (handle op env req db).res.statusCode = 200) ∧
    ((handle op env req db).res.body.lookup "status" = none ∨
      (handle op env req db).res.body.lookup "status" = some (jstr "success") ∨
      (handle op env req db).res.body.lookup "status" = some (jstr "error")) ∧
    (((handle op env req db).res.statusCode = 200 ∨
        (handle op env req db).res.statusCode = 201) →
      (handle op env req db).res.body.lookup "status" = some (jstr "success")) ∧
    ((handle op env req db).res.statusCode ≠ 200 →
      (handle op env req db).res.statusCode ≠ 201 →
      (op = Op.register ∨ op = Op.verifyOtp ∨ op = Op.resendOtp ∨ op = Op.login ∨
        op = Op.sendResetPasswordEmail ∨ op = Op.passwordReset) →
      (∃ m, (handle op env req db).res.body = [("message", jstr m)]) ∧
      (handle op env req db).res.body.lookup "status" = none) ∧
    ((handle op env req db).res.statusCode ≠ 200 →
      (op = Op.checkEmail ∨ op = Op.changePasswordEmail ∨ op = Op.resetPasswordDirect) →
      ∃ m, (handle op env req db).res.body
        = [("status", jstr "error"), ("message", jstr m)]) ∧
    ((handle op env req db).res.statusCode ≠ 200 → op = Op.changePassword →
      ((∃ m, (handle op env req db).res.body = [("message", jstr m)]) ∨
        ((handle op env req db).res.statusCode = 401 ∧
          ∃ m, (handle op env req db).res.body
            = [("success", JVal.prim (Prim.bool false)), ("message", jstr m)])) ∧
      (handle op env req db).res.body.lookup "status" = none) ∧
    ((handle op env req db).res.statusCode ≠ 200 → op = Op.loggedUser →
      (handle op env req db).res.statusCode = 401 ∧
      (∃ m, (handle op env req db).res.body
        = [("success", JVal.prim (Prim.bool false)), ("message", jstr m)]) ∧
      (handle op env req db).res.body.lookup "status" = none) := by
  cases op
  case changePassword =>
    simp only [handle, changePasswordRoute]
    cases hp : protect env req db with
    | deny r =>
      obtain ⟨m, rfl⟩ := protect_deny_shape env req db r hp
      simp [reply, deniedRes, List.lookup, jstr]
    | next user =>
      simp only [changePassword]
      repeat' split
      all_goals simp [reply, messageRes, statusRes, List.lookup, jstr]
  case loggedUser =>
    simp only [handle, loggedUserRoute]
    cases hp : protect env req db with
    | deny r =>
      obtain ⟨m, rfl⟩ := protect_deny_shape env req db r hp
      simp [reply, deniedRes, List.lookup, jstr]
    | next user => simp [Loggeduser, reply, List.lookup, jstr]
  all_goals
    simp only [handle, userRegistration, verifyEmailOTP, resendOTP, userLogin, userLogout,
      sendUserPasswordResetEmail, userPasswordReset, resetPasswordDirectly, checkEmail,
      changePasswordByEmail]
    repeat' split
    all_goals simp [reply, messageRes, statusRes, List.lookup, jstr]

/-- C19, amended: every answer of the router (controller handlers and auth gate) carries
a `message` field, except the 200 answer of the current-user route; a `status` field,
when there is one, is `"success"` or `"error"`; every 200 or 201 answer carries
`status: "success"`; an error answer (neither 200 nor 201) of register, verify-otp,
resend-otp, login, send-reset-password-email and password-reset is exactly a `message`,
without `status`; an error answer of check-email, change-password-email and
reset-password-direct is exactly `status: "error"` and a `message`; an error answer of
change-password is either exactly a `message`, from the handler, or the 401 of the gate;
an error answer of logged-user is the 401 of the gate; and every answer of the gate
itself is a 401 with exactly `success: false` and a `message`, without `status`. -/
theorem response_envelope (op : Op) (env : Env) (req : Req) (db : Store) :
    ((handle op env req db).res.body.lookup "message" = none →
      op = Op.loggedUser ∧ (handle op env req db).res.statusCode = 200) ∧
    ((handle op env req db).res.body.lookup "status" = none ∨
      (handle op env req db).res.body.lookup "status" = some (jstr "success") ∨
      (handle op env req db).res.body.lookup "status" = some (jstr "error")) ∧
    (((handle op env req db).res.statusCode = 200 ∨
        (handle op env req db).res.statusCode = 201) →
      (handle op env req db).res.body.lookup "status" = some (jstr "success")) ∧
    ((handle op env req db).res.statusCode ≠ 200 →
      (handle op env req db).res.statusCode ≠ 201 →
      (op = Op.register ∨ op = Op.verifyOtp ∨ op = Op.resendOtp ∨ op = Op.login ∨
        op = Op.sendResetPasswordEmail ∨ op = Op.passwordReset) →
      (∃ m, (handle op env req db).res.body = [("message", jstr m)]) ∧
      (handle op env req db).res.body.lookup "status" = none) ∧
    ((handle op env req db).res.statusCode ≠ 200 →
      (op = Op.checkEmail ∨ op = Op.changePasswordEmail ∨ op = Op.resetPasswordDirect) →
      ∃ m, (handle op env req db).res.body
        = [("status", jstr "error"), ("message", jstr m)]) ∧
    ((handle op env req db).res.statusCode ≠ 200 → op = Op.changePassword →
      ((∃ m, (handle op env req db).res.body = [("message", jstr m)]) ∨
        ((handle op env req db).res.statusCode = 401 ∧
          ∃ m, (handle op env req db).res.body
            = [("success", JVal.prim (Prim.bool false)), ("message", jstr m)])) ∧
      (handle op env req db).res.body.lookup "status" = none) ∧
    ((handle op env req db).res.statusCode ≠ 200 → op = Op.loggedUser →
      (handle op env req db).res.statusCode = 401 ∧
      (∃ m, (handle op env req db).res.body
        = [("success", JVal.prim (Prim.bool false)), ("message", jstr m)]) ∧
      (handle op env req db).res.body.lookup "status" = none) ∧
    (∀ r, protect env req db = Gate.deny r →
      r.statusCode = 401 ∧
      (∃ m, r.body = [("success", JVal.prim (Prim.bool false)), ("message", jstr m)]) ∧
      r.body.lookup "status" = none ∧
      (handle Op.changePassword env req db).res = r ∧
      (handle Op.loggedUser env req db).res = r) := by
  have hgate : ∀ r, protect env req db = Gate.deny r →
      r.statusCode = 401 ∧
      (∃ m, r.body = [("success", JVal.prim (Prim.bool false)), ("message", jstr m)]) ∧
      r.body.lookup "status" = none ∧
      (handle Op.changePassword env req db).res = r ∧
      (handle Op.loggedUser env req db).res = r := by
    intro r hr
    obtain ⟨m, rfl⟩ := protect_deny_shape env req db _ hr
    refine ⟨rfl, ⟨m, rfl⟩, rfl, ?_, ?_⟩
    · simp only [handle, changePasswordRoute, hr, reply]
    · simp only [handle, loggedUserRoute, hr, reply]
  obtain ⟨h1, h2, h3, h4, h5, h6, h7⟩ := envelope_by_operation op env req db
  exact ⟨h1, h2, h3, h4, h5, h6, h7, hgate⟩

/-! ## A changed password takes effect -/

/-- The sample hasher satisfies the hasher assumption. -/
theorem sampleEnv_hasherSound (a b : Nat) :
    HasherSound (sampleEnv a).hashPassword (sampleEnv b).comparePassword := by
  intro p h hp
  simp only [sampleEnv, Option.some.injEq] at hp
  subst hp
  refine ⟨by simp [sampleEnv], fun p2 hne => ?_⟩
  simp only [sampleEnv, beq_eq_false_iff_ne, ne_eq]
  intro heq
  apply hne
  have hd := congrArg String.data heq
  simp only [String.data_append, List.append_cancel_left_eq] at hd
  exact (String.ext hd).symm

/-- C20, counterexample: Bob changes his password with his token; his login with the old
password is then answered with status 400, not 401. -/
theorem login_with_old_password_is_400 :
    (changePasswordRoute (sampleEnv 10)
        { authorization := some "Bearer tokenB", password := some "newpw",
          confirm_password := some "newpw" } sampleStore).res.statusCode = 200 ∧
    (userLogin (sampleEnv 20) { email := some "b@x.com", password := some "bobpw" }
        (changePasswordRoute (sampleEnv 10)
          { authorization := some "Bearer tokenB", password := some "newpw",
            confirm_password := some "newpw" } sampleStore).db).res
      = messageRes 400 "Invalid credentials" ∧
    (userLogin (sampleEnv 20) { email := some "b@x.com", password := some "bobpw" }
        (changePasswordRoute (sampleEnv 10)
          { authorization := some "Bearer tokenB", password := some "newpw",
            confirm_password := some "newpw" } sampleStore).db).res.statusCode ≠ 401 := by
  decide

/-- C20, amended: with a hasher whose hashes verify the hashed password and no other,
for a verified account (unique ids, non-empty email) and a non-empty new password `pw`,
after an authenticated `/change-password` with `pw` that answers 200, a login with any
other non-empty password `old`, the old one in particular, fails with 400
`Invalid credentials` and no token, and a login with `pw` succeeds with 200 and a
token issued for the account. -/
theorem changePassword_then_login (env envL : Env) (req : Req) (db : Store) (user : User)
    (pw old : String) (hu : IdsUnique db)
    (hsound : HasherSound env.hashPassword envL.comparePassword)
    (hrL : envL.dbReadOk = true)
    (hfind : findOne db (some user.email) = some user) (hemail0 : user.email ≠ "")
    (hv : user.isVerified = true)
    (hgate : protect env req db = Gate.next (selectNoPassword user))
    (hpw : req.password = some pw) (hpw0 : pw ≠ "")
    (hold0 : old ≠ "") (hne : old ≠ pw)
    (hok : (changePasswordRoute env req db).res.statusCode = 200) :
    (userLogin envL { email := some user.email, password := some old }
        (changePasswordRoute env req db).db).res = messageRes 400 "Invalid credentials" ∧
    (userLogin envL { email := some user.email, password := some old }
        (changePasswordRoute env req db).db).issued = [] ∧
    (userLogin envL { email := some user.email, password := some pw }
        (changePasswordRoute env req db).db).res.statusCode = 200 ∧
    (userLogin envL { email := some user.email, password := some pw }
        (changePasswordRoute env req db).db).issued = [(user._id, none)] ∧
    (userLogin envL { email := some user.email, password := some pw }
        (changePasswordRoute env req db).db).res.body.lookup "token"
      = some (jstr (envL.generateToken user._id none)) := by
  -- what the successful change has written
  have hchg : ∃ hashed, env.hashPassword pw = some hashed ∧
      (changePasswordRoute env req db).db
        = updateById db user._id (fun d => { d with password := hashed }) := by
    simp only [changePasswordRoute, hgate, changePassword, hpw, Option.getD_some] at hok ⊢
    by_cases h1 : (!truthy (some pw) || !truthy req.confirm_password) = true
    · rw [if_pos h1] at hok
      simp [reply, messageRes] at hok
    rw [if_neg h1] at hok ⊢
    by_cases h2 : (!strictEq (some pw) req.confirm_password) = true
    · rw [if_pos h2] at hok
      simp [reply, messageRes] at hok
    rw [if_neg h2] at hok ⊢
    cases hhash : env.hashPassword pw with
    | none =>
      rw [hhash] at hok
      simp [reply, messageRes] at hok
    | some hashed =>
      rw [hhash] at hok
      simp only at hok ⊢
      by_cases h3 : (!env.dbWriteOk) = true
      · rw [if_pos h3] at hok
        simp [reply, messageRes] at hok
      · rw [if_neg h3]
        exact ⟨hashed, rfl, rfl⟩
  obtain ⟨hashed, hhash, hdb⟩ := hchg
  obtain ⟨hcmp, hcmpOther⟩ := hsound pw hashed hhash
  have hafter : findOne (changePasswordRoute env req db).db (some user.email)
      = some { user with password := hashed } := by
    rw [hdb]
    exact findOne_updateById db user.email user _ (fun _ => rfl) hu hfind
  generalize (changePasswordRoute env req db).db = db1 at hafter
  have hL := fun (p : String) (hp : p ≠ "") =>
    userLogin_found envL { email := some user.email, password := some p } db1
      { user with password := hashed } hrL hemail0 (by simpa [truthy] using hp) hafter
  have hbad := hcmpOther old hne
  refine ⟨?_, ?_, ?_, ?_, ?_⟩
  · rw [hL old hold0]
    simp [hv, hbad, reply]
  · rw [hL old hold0]
    simp [hv, hbad, reply]
  · rw [hL pw hpw0]
    simp [hv, hcmp]
  · rw [hL pw hpw0]
    simp [hv, hcmp]
  · rw [hL pw hpw0]
    simp [hv, hcmp, List.lookup]

/-- C20, witness: Bob changes his password to `"newpw"`, then logs in with the old and
the new one. -/
theorem changePassword_then_login_witness :
    (changePasswordRoute (sampleEnv 10)
        { authorization := some "Bearer tokenB", password := some "newpw",
          confirm_password := some "newpw" } sampleStore).res.statusCode = 200 ∧
    (userLogin (sampleEnv 20) { email := some bob.email, password := some "bobpw" }
        (changePasswordRoute (sampleEnv 10)
          { authorization := some "Bearer tokenB", password := some "newpw",
            confirm_password := some "newpw" } sampleStore).db).res
      = messageRes 400 "Invalid credentials" ∧
    (userLogin (sampleEnv 20) { email := some bob.email, password := some "bobpw" }
        (changePasswordRoute (sampleEnv 10)
          { authorization := some "Bearer tokenB", password := some "newpw",
            confirm_password := some "newpw" } sampleStore).db).issued = [] ∧
    (userLogin (sampleEnv 20) { email := some bob.email, password := some "newpw" }
        (changePasswordRoute (sampleEnv 10)
          { authorization := some "Bearer tokenB", password := some "newpw",
            confirm_password := some "newpw" } sampleStore).db).res.statusCode = 200 ∧
    (userLogin (sampleEnv 20) { email := some bob.email, password := some "newpw" }
        (changePasswordRoute (sampleEnv 10)
          { authorization := some "Bearer tokenB", password := some "newpw",
            confirm_password := some "newpw" } sampleStore).db).issued = [(bob._id, none)] ∧
    (userLogin (sampleEnv 20) { email := some bob.email, password := some "newpw" }
        (changePasswordRoute (sampleEnv 10)
          { authorization := some "Bearer tokenB", password := some "newpw",
            confirm_password := some "newpw" } sampleStore).db).res.body.lookup "token"
      = some (jstr ((sampleEnv 20).generateToken bob._id none)) :=
  ⟨by decide,
    changePassword_then_login (sampleEnv 10) (sampleEnv 20)
      { authorization := some "Bearer tokenB", password := some "newpw",
        confirm_password := some "newpw" } sampleStore bob "newpw" "bobpw" (by decide)
      (sampleEnv_hasherSound 10 20) rfl (by decide) (by decide) rfl (by decide) rfl
      (by decide) (by decide) (by decide) (by decide)⟩

/-! ## OTP fields are bound only while verification is pending -/

/-- The account found by email is stored. -/
theorem findOne_mem (db : Store) (email : Option String) (user : User)
    (h : findOne db email = some user) : user ∈ db := by
  cases email with
  | none => simp [findOne] at h
  | some e => exact List.mem_of_find?_eq_some h

/-- Either resend leaves the store alone or it has rewritten the OTP fields of an
unverified account found by email. -/
theorem resendOTP_db_cases (env : Env) (req : Req) (db : Store) :
    (resendOTP env req db).db = db ∨
    (∃ user, findOne db req.email = some user ∧ user.isVerified = false ∧
      (resendOTP env req db).db = updateById db user._id
        (fun d => { d with otp := some env.generateOTP,
                           otpExpires := some (env.now + 10 * 60 * 1000) })) := by
  cases hr : env.dbReadOk with
  | false => simp [resendOTP, hr, reply]
  | true =>
    cases hfind : findOne db req.email with
    | none => simp [resendOTP, hr, hfind, reply]
    | some user =>
      cases hv : user.isVerified with
      | true => simp [resendOTP, hr, hfind, hv, reply]
      | false =>
        cases hw : env.dbWriteOk with
        | false => simp [resendOTP, hr, hfind, hv, hw, reply]
        | true =>
          right
          refine ⟨user, rfl, hv, ?_⟩
          rw [resendOTP_found env req db user hr hfind hv hw]
          split <;> rfl

/-- Every operation of the router changes the store in one of the ways of `OtpStep`. -/
theorem handle_otpStep (op : Op) (env : Env) (req : Req) (db : Store) :
    OtpStep db (handle op env req db).db := by
  cases op
  case register =>
    simp only [handle]
    unfold userRegistration
    by_cases h1 : (!truthy req.name || !truthy req.email || !truthy req.password
        || !truthy req.confirm_password) = true
    · rw [if_pos h1]
      exact Or.inl rfl
    rw [if_neg h1]
    by_cases h2 : (!strictEq req.password req.confirm_password) = true
    · rw [if_pos h2]
      exact Or.inl rfl
    rw [if_neg h2]
    by_cases h3 : (!env.dbReadOk) = true
    · rw [if_pos h3]
      exact Or.inl rfl
    rw [if_neg h3]
    cases hfind : findOne db req.email with
    | some u => exact Or.inl rfl
    | none =>
      cases hhash : env.hashPassword (req.password.getD "") with
      | none => exact Or.inl rfl
      | some hashed =>
        simp only
        by_cases h4 : (!env.dbWriteOk) = true
        · rw [if_pos h4]
          exact Or.inl rfl
        rw [if_neg h4]
        by_cases h5 : (!env.sendOTPEmail (req.email.getD "") env.generateOTP) = true
        · rw [if_pos h5]
          exact Or.inr (Or.inr (Or.inr ⟨_, rfl, rfl, rfl⟩))
        · rw [if_neg h5]
          exact Or.inr (Or.inr (Or.inr ⟨_, rfl, rfl, rfl⟩))
  case verifyOtp =>
    rcases verifyEmailOTP_cases env req db with ⟨_, h⟩ | ⟨user, hfind, hv, _, h⟩
    · exact Or.inl h
    · exact Or.inr (Or.inr (Or.inl ⟨user,
        fun d => { d with isVerified := true, otp := none, otpExpires := none },
        findOne_mem db _ user hfind, hv, fun _ => rfl, fun _ => ⟨rfl, rfl⟩, h⟩))
  case resendOtp =>
    rcases resendOTP_db_cases env req db with h | ⟨user, hfind, hv, h⟩
    · exact Or.inl h
    · refine Or.inr (Or.inr (Or.inl ⟨user,
        fun d => { d with otp := some env.generateOTP,
                          otpExpires := some (env.now + 10 * 60 * 1000) },
        findOne_mem db _ user hfind, hv, fun _ => rfl, fun hver => ?_, h⟩))
      simp [hv] at hver
  all_goals
    simp only [handle, userLogin, userLogout,
      sendUserPasswordResetEmail, userPasswordReset, resetPasswordDirectly, checkEmail,
      changePasswordByEmail, changePasswordRoute, loggedUserRoute, changePassword,
      Loggeduser, reply]
    repeat' split
    all_goals
      first
        | exact Or.inl rfl
        | (refine Or.inr (Or.inl ⟨_, _, ?_, rfl⟩)
           intro d
           exact ⟨rfl, rfl, rfl, rfl⟩)

/-- Each way of `OtpStep` keeps ids unique. -/
theorem otpStep_idsUnique (db db1 : Store) (h : OtpStep db db1) (hu : IdsUnique db) :
    IdsUnique db1 := by
  rcases h with rfl | ⟨id, f, hf, rfl⟩ | ⟨user, f, _, _, hf, _, rfl⟩ | ⟨u, _, hid, rfl⟩
  · exact hu
  · unfold IdsUnique
    rw [updateById_map_id db id f (fun d => (hf d).1)]
    exact hu
  · unfold IdsUnique
    rw [updateById_map_id db user._id f hf]
    exact hu
  · unfold IdsUnique at hu ⊢
    rw [List.map_append, List.map_cons, List.map_nil]
    apply List.Nodup.append hu (List.nodup_singleton _)
    rw [List.disjoint_singleton, hid]
    exact freshId_not_mem db

/-- Each way of `OtpStep` keeps the OTP fields of verified accounts cleared. -/
theorem otpStep_otpCleared (db db1 : Store) (h : OtpStep db db1) (hu : IdsUnique db)
    (hc : OtpCleared db) : OtpCleared db1 := by
  rcases h with rfl | ⟨id, f, hf, rfl⟩ | ⟨user, f, hmem, _, _, hfu, rfl⟩ | ⟨u, hv, _, rfl⟩
  · exact hc
  · rw [updateById_eq_map db id f hu]
    intro u1 hu1 hver
    obtain ⟨d, hd, rfl⟩ := List.mem_map.mp hu1
    by_cases hid : d._id = id
    · simp only [hid, if_true] at hver ⊢
      obtain ⟨_, h2, h3, h4⟩ := hf d
      rw [h3, h4]
      exact hc d hd (h2 ▸ hver)
    · simp only [hid, if_false] at hver ⊢
      exact hc d hd hver
  · rw [updateById_eq_map db user._id f hu]
    intro u1 hu1 hver
    obtain ⟨d, hd, rfl⟩ := List.mem_map.mp hu1
    by_cases hid : d._id = user._id
    · have hdu : d = user := List.inj_on_of_nodup_map hu hd hmem hid
      subst hdu
      simp only [if_true] at hver ⊢
      exact hfu hver
    · simp only [hid, if_false] at hver ⊢
      exact hc d hd hver
  · intro u1 hu1 hver
    rcases List.mem_append.mp hu1 with hin | hin
    · exact hc u1 hin hver
    · simp only [List.mem_singleton] at hin
      subst hin
      rw [hv] at hver
      cases hver

/-- No way of `OtpStep` touches the verification state or the OTP fields of a verified
account. -/
theorem otpStep_frame (db db1 : Store) (h : OtpStep db db1) (hu : IdsUnique db)
    (u : User) (hmemu : u ∈ db) (hver : u.isVerified = true) :
    ∃ u1 ∈ db1, u1._id = u._id ∧ u1.isVerified = true ∧ u1.otp = u.otp ∧
      u1.otpExpires = u.otpExpires := by
  rcases h with rfl | ⟨id, f, hf, rfl⟩ | ⟨user, f, hmem, hv, _, _, rfl⟩ | ⟨a, _, _, rfl⟩
  · exact ⟨u, hmemu, rfl, hver, rfl, rfl⟩
  · rw [updateById_eq_map db id f hu]
    by_cases hid : u._id = id
    · obtain ⟨h1, h2, h3, h4⟩ := hf u
      refine ⟨f u, List.mem_map.mpr ⟨u, hmemu, by simp [hid]⟩, h1, h2 ▸ hver, h3, h4⟩
    · exact ⟨u, List.mem_map.mpr ⟨u, hmemu, by simp [hid]⟩, rfl, hver, rfl, rfl⟩
  · rw [updateById_eq_map db user._id f hu]
    have hid : u._id ≠ user._id := by
      intro hid
      have hdu : u = user := List.inj_on_of_nodup_map hu hmemu hmem hid
      rw [hdu, hv] at hver
      cases hver
    exact ⟨u, List.mem_map.mpr ⟨u, hmemu, by simp [hid]⟩, rfl, hver, rfl, rfl⟩
  · exact ⟨u, List.mem_append_left _ hmemu, rfl, hver, rfl, rfl⟩

/-- Along a sequence of calls ids stay unique and verified accounts keep their OTP
fields cleared. -/
theorem runCalls_otpCleared (calls : List Call) (db : Store) (hu : IdsUnique db)
    (hc : OtpCleared db) :
    IdsUnique (runCalls calls db) ∧ OtpCleared (runCalls calls db) := by
  induction calls generalizing db with
  | nil => exact ⟨hu, hc⟩
  | cons c cs ih =>
    have hstep := handle_otpStep c.op c.env c.req db
    exact ih _ (otpStep_idsUnique db _ hstep hu) (otpStep_otpCleared db _ hstep hu hc)

/-- C21: in every store reached from the empty store by operations of the router run
one at a time, every account with `isVerified = true` has `otp` and `otpExpires`
cleared, and still has after any further operation; and in any store with unique ids no
operation changes the verification state or the OTP fields of a verified account, so
none binds an OTP to it. -/
theorem otp_bound_only_while_pending (calls : List Call) (u : User)
    (hmem : u ∈ runCalls calls []) (hver : u.isVerified = true) :
    (u.otp = none ∧ u.otpExpires = none) ∧
    (∀ op env req, ∃ u1 ∈ (handle op env req (runCalls calls [])).db,
      u1._id = u._id ∧ u1.isVerified = true ∧ u1.otp = none ∧ u1.otpExpires = none) ∧
    (∀ (db : Store), IdsUnique db → ∀ v ∈ db, v.isVerified = true →
      ∀ op env req, ∃ v1 ∈ (handle op env req db).db,
        v1._id = v._id ∧ v1.isVerified = true ∧ v1.otp = v.otp ∧
        v1.otpExpires = v.otpExpires) := by
  have hinv := runCalls_otpCleared calls [] (by simp [IdsUnique])
    (by intro x hx; cases hx)
  have hclear := hinv.2 u hmem hver
  refine ⟨hclear, fun op env req => ?_, fun db hu v hv hvv op env req =>
    otpStep_frame db _ (handle_otpStep op env req db) hu v hv hvv⟩
  obtain ⟨u1, h1, h2, h3, h4, h5⟩ :=
    otpStep_frame _ _ (handle_otpStep op env req (runCalls calls [])) hinv.1 u hmem hver
  exact ⟨u1, h1, h2, h3, h4.trans hclear.1, h5.trans hclear.2⟩

/-- C21, witness: Carol, after registering and verifying on the empty store, and after
a further resend. -/
theorem otp_bound_only_while_pending_witness :
    carol ∈ runCalls carolCalls [] ∧ carol.isVerified = true ∧
    (carol.otp = none ∧ carol.otpExpires = none) ∧
    (∃ u1 ∈ (handle Op.resendOtp (sampleEnv 60) { email := some "c@x.com" }
        (runCalls carolCalls [])).db,
      u1._id = carol._id ∧ u1.isVerified = true ∧ u1.otp = none ∧ u1.otpExpires = none) :=
  have h := otp_bound_only_while_pending carolCalls carol (by decide) rfl
  ⟨by decide, rfl, h.1, h.2.1 Op.resendOtp (sampleEnv 60) { email := some "c@x.com" }⟩

/-! ## The reset link -/

/-- C22: `sendUserPasswordResetEmail` leaves the store unchanged and mails nothing in
every case; it answers 400 `Email is required` when the email is missing or empty and,
the lookup not throwing, 404 `Email does not exist` when no account has that email, in
both cases issuing no token; otherwise it answers 200 and issues exactly one token, for
that account's id, with the lifetime override `"1h"` and not the default lifetime. -/
theorem sendUserPasswordResetEmail_spec (env : Env) (req : Req) (db : Store) :
    ((sendUserPasswordResetEmail env req db).db = db ∧
      (sendUserPasswordResetEmail env req db).mails = []) ∧
    (truthy req.email = false →
      (sendUserPasswordResetEmail env req db).res = messageRes 400 "Email is required" ∧
      (sendUserPasswordResetEmail env req db).issued = []) ∧
    (truthy req.email = true → env.dbReadOk = true → findOne db req.email = none →
      (sendUserPasswordResetEmail env req db).res = messageRes 404 "Email does not exist" ∧
      (sendUserPasswordResetEmail env req db).issued = []) ∧
    (∀ user, truthy req.email = true → env.dbReadOk = true →
      findOne db req.email = some user →
      (sendUserPasswordResetEmail env req db).res
        = statusRes 200 "success" "Password reset link generated (check console)" ∧
      (sendUserPasswordResetEmail env req db).issued = [(user._id, some "1h")] ∧
      (sendUserPasswordResetEmail env req db).issued ≠ [(user._id, none)]) := by
  refine ⟨?_, fun he => ?_, fun he hr hnone => ?_, fun user he hr hfind => ?_⟩
  · unfold sendUserPasswordResetEmail
    repeat' split
    all_goals exact ⟨rfl, rfl⟩
  · simp [sendUserPasswordResetEmail, he, reply]
  · simp [sendUserPasswordResetEmail, he, hr, hnone, reply]
  · simp [sendUserPasswordResetEmail, he, hr, hfind]

/-! ## Accounts are never deleted -/

/-- An operation other than registration leaves the store alone or updates one account
without touching its id. -/
theorem handle_update_only (op : Op) (env : Env) (req : Req) (db : Store)
    (hop : op ≠ Op.register) :
    (handle op env req db).db = db ∨
    ∃ id f, (∀ d : User, (f d)._id = d._id) ∧ (handle op env req db).db = updateById db id f := by
  cases op
  case register => exact absurd rfl hop
  all_goals
    simp only [handle, verifyEmailOTP, resendOTP, userLogin, userLogout,
      sendUserPasswordResetEmail, userPasswordReset, resetPasswordDirectly, checkEmail,
      changePasswordByEmail, changePasswordRoute, loggedUserRoute, changePassword,
      Loggeduser, reply]
    repeat' split
    all_goals
      first
        | exact Or.inl rfl
        | exact Or.inl trivial
        | (refine Or.inr ⟨_, _, ?_, rfl⟩
           intro d
           rfl)

/-- C23: for every operation of the router and every store, every account id present
before is present after; an operation other than registration leaves the list of ids as
it was, and registration adds at most one account; login, logout, check-email,
send-reset-password-email and logged-user leave the whole store unchanged whatever
their outcome. -/
theorem accounts_never_deleted (op : Op) (env : Env) (req : Req) (db : Store) :
    (∀ id ∈ db.map (fun u => u._id), id ∈ (handle op env req db).db.map (fun u => u._id)) ∧
    (op ≠ Op.register →
      (handle op env req db).db.map (fun u => u._id) = db.map (fun u => u._id)) ∧
    ((handle op env req db).db.length = db.length ∨
      (op = Op.register ∧ (handle op env req db).db.length = db.length + 1)) ∧
    (op = Op.login ∨ op = Op.logout ∨ op = Op.checkEmail ∨ op = Op.sendResetPasswordEmail ∨
        op = Op.loggedUser →
      (handle op env req db).db = db) := by
  have hids : op ≠ Op.register →
      (handle op env req db).db.map (fun u => u._id) = db.map (fun u => u._id) := by
    intro hop
    rcases handle_update_only op env req db hop with h | ⟨id, f, hf, h⟩
    · rw [h]
    · rw [h, updateById_map_id db id f hf]
  refine ⟨?_, hids, ?_, ?_⟩
  · intro id hid
    rcases handle_step op env req db with h | ⟨i, f, hf, h⟩ | ⟨u, _, _, h⟩
    · rw [h]; exact hid
    · rw [h, updateById_map_id db i f (fun d => (hf d).2)]; exact hid
    · rw [h, List.map_append]
      exact List.mem_append_left _ hid
  · by_cases hop : op = Op.register
    · rcases handle_step op env req db with h | ⟨i, f, hf, h⟩ | ⟨u, _, _, h⟩
      · left; rw [h]
      · left
        have := congrArg List.length (updateById_map_id db i f (fun d => (hf d).2))
        rw [h]
        simpa using this
      · right
        refine ⟨hop, ?_⟩
        rw [h]
        simp
    · left
      have := congrArg List.length (hids hop)
      simpa using this
  · rintro (rfl | rfl | rfl | rfl | rfl)
    · simp only [handle, userLogin, reply]
      repeat' split
      all_goals rfl
    · rfl
    · simp only [handle, checkEmail, reply]
      repeat' split
      all_goals rfl
    · simp only [handle, sendUserPasswordResetEmail, reply]
      repeat' split
      all_goals rfl
    · simp only [handle, loggedUserRoute, Loggeduser, reply]
      repeat' split
      all_goals rfl

/-! ## Extraction of the bearer token -/

/-- A split is never empty. -/
theorem splitChars_ne_nil (sep : Char) (l : List Char) : splitChars sep l ≠ [] := by
  cases l with
  | nil => simp [splitChars]
  | cons c cs =>
    unfold splitChars
    split_ifs
    · simp
    · split <;> simp

/-- A piece that does not contain the separator is split off up to the first
separator. -/
theorem splitChars_append_sep (sep : Char) (w l : List Char) (hw : sep ∉ w) :
    splitChars sep (w ++ sep :: l) = w :: splitChars sep l := by
  induction w with
  | nil => simp [splitChars]
  | cons c cs ih =>
    simp only [List.mem_cons, not_or] at hw
    have hc : c ≠ sep := fun h => hw.1 h.symm
    have hstep : splitChars sep (c :: (cs ++ sep :: l))
        = (c :: cs) :: splitChars sep l := by
      simp only [splitChars, hc, if_false, ih hw.2]
    exact hstep

/-- A list without the separator is a single piece. -/
theorem splitChars_of_not_mem (sep : Char) (l : List Char) (h : sep ∉ l) :
    splitChars sep l = [l] := by
  induction l with
  | nil => rfl
  | cons c cs ih =>
    simp only [List.mem_cons, not_or] at h
    have hc : c ≠ sep := fun e => h.1 e.symm
    simp only [splitChars, hc, if_false, ih h.2]

/-- The pieces of a split do not contain the separator, and joined with the separator
they give back the list: `splitChars` is the split of JavaScript. -/
theorem splitChars_join (sep : Char) (l : List Char) :
    (∀ w ∈ splitChars sep l, sep ∉ w) ∧ List.intercalate [sep] (splitChars sep l) = l := by
  induction l with
  | nil => simp [splitChars, List.intercalate]
  | cons c cs ih =>
    unfold splitChars
    by_cases hc : c = sep
    · simp only [hc, if_true]
      refine ⟨?_, ?_⟩
      · intro w hw
        rcases List.mem_cons.mp hw with rfl | hw
        · simp
        · exact ih.1 w hw
      · have hne := splitChars_ne_nil sep cs
        cases hs : splitChars sep cs with
        | nil => exact absurd hs hne
        | cons w ws =>
          have h2 := ih.2
          rw [hs] at h2
          rw [← h2]
          simp [List.intercalate, List.intersperse]
    · simp only [hc, if_false]
      cases hs : splitChars sep cs with
      | nil => exact absurd hs (splitChars_ne_nil sep cs)
      | cons w ws =>
        have h1 := ih.1
        have h2 := ih.2
        rw [hs] at h1 h2
        refine ⟨?_, ?_⟩
        · intro x hx
          rcases List.mem_cons.mp hx with rfl | hx
          · simp only [List.mem_cons, not_or]
            exact ⟨fun e => hc e.symm, h1 w (List.mem_cons_self _ _)⟩
          · exact h1 x (List.mem_cons_of_mem _ hx)
        · rw [← h2]
          cases ws <;> simp [List.intercalate, List.intersperse]

/-- The token of a header that starts with `"Bearer "`: the first piece of what
follows. -/
theorem bearerToken_of_bearer (l : List Char) :
    bearerToken (some (String.mk ("Bearer ".data ++ l)))
      = ((splitChars (Char.ofNat 32) l).head?).map String.mk := by
  have hsplit : splitChars (Char.ofNat 32) ("Bearer ".data ++ l)
      = "Bearer".data :: splitChars (Char.ofNat 32) l := by
    have := splitChars_append_sep (Char.ofNat 32) "Bearer".data l (by decide)
    exact this
  have hpre : "Bearer ".data.isPrefixOf ("Bearer ".data ++ l) = true := by
    rw [List.isPrefixOf_iff_prefix]
    exact List.prefix_append _ _
  unfold bearerToken
  simp only [hpre, if_true, hsplit]
  cases splitChars (Char.ofNat 32) l <;> simp

/-- Without a token the gate answers 401 itself, whatever `verifyToken` would say. -/
theorem protect_no_token (env : Env) (req : Req) (db : Store)
    (h : truthy (bearerToken req.authorization) = false) :
    protect env req db = Gate.deny (deniedRes "❌ No token, authorization denied") := by
  unfold protect
  simp [h]

/-- C24: the token read by `protect` is the second piece of the `Authorization` header
split on single spaces, taken only when the header starts with `"Bearer "`; for a header
`"Bearer "` followed by a non-empty `t` without spaces the token is exactly `t` and
`verifyToken` is consulted on `t`; a header with another scheme or case (`"bearer t"`,
`"Basic t"`), the bare header `"Bearer "`, a header with two spaces after `Bearer` and a
missing header yield no token, and then the gate answers 401
`No token, authorization denied` whatever `verifyToken` would say. -/
theorem bearerToken_spec (t : String) (ht0 : t ≠ "") (hsp : Char.ofNat 32 ∉ t.data) :
    bearerToken (some ("Bearer " ++ t)) = some t ∧
    (∀ env req db, req.authorization = some ("Bearer " ++ t) →
      protect env req db =
        match env.verifyToken t with
        | none => Gate.deny (deniedRes "❌ Not authorized, token failed")
        | some none => Gate.deny (deniedRes "❌ Invalid token payload")
        | some (some userId) =>
          if !env.dbReadOk then Gate.deny (deniedRes "❌ Not authorized, token failed")
          else
            match findById db userId with
            | none => Gate.deny (deniedRes "❌ User not found")
            | some user => Gate.next (selectNoPassword user)) ∧
    (∀ a : String, bearerToken (some a) =
      if "Bearer ".data.isPrefixOf a.data then
        ((splitChars (Char.ofNat 32) a.data)[1]?).map String.mk
      else none) ∧
    (∀ a : String, "Bearer ".data.isPrefixOf a.data = false → bearerToken (some a) = none) ∧
    bearerToken (some ("bearer " ++ t)) = none ∧
    bearerToken (some ("Basic " ++ t)) = none ∧
    truthy (bearerToken (some "Bearer ")) = false ∧
    (∀ rest : String, truthy (bearerToken (some ("Bearer  " ++ rest))) = false) ∧
    truthy (bearerToken none) = false ∧
    (∀ env req db, truthy (bearerToken req.authorization) = false →
      protect env req db = Gate.deny (deniedRes "❌ No token, authorization denied") ∧
      (deniedRes "❌ No token, authorization denied").statusCode = 401) := by
  have htok : bearerToken (some ("Bearer " ++ t)) = some t := by
    have hs : "Bearer " ++ t = String.mk ("Bearer ".data ++ t.data) := by
      apply String.ext
      simp [String.data_append]
    rw [hs, bearerToken_of_bearer, splitChars_of_not_mem _ _ hsp]
    rfl
  have hother : ∀ a : String, "Bearer ".data.isPrefixOf a.data = false →
      bearerToken (some a) = none := by
    intro a ha
    simp [bearerToken, ha]
  refine ⟨htok, ?_, fun a => rfl, hother, ?_, ?_, by decide, ?_, rfl, ?_⟩
  · intro env req db hreq
    unfold protect
    simp only [hreq, htok, truthy, Option.getD_some]
    have : (t != "") = true := by simpa using ht0
    simp only [this, Bool.not_true, Bool.false_eq_true, if_false]
  · apply hother
    simp [String.data_append, List.isPrefixOf]
  · apply hother
    simp [String.data_append, List.isPrefixOf]
  · intro rest
    have hs : "Bearer  " ++ rest
        = String.mk ("Bearer ".data ++ (Char.ofNat 32 :: rest.data)) := by
      apply String.ext
      simp [String.data_append]
    rw [hs, bearerToken_of_bearer]
    simp [splitChars, truthy]
  · intro env req db h
    exact ⟨protect_no_token env req db h, rfl⟩

/-- C24, witness: the header `"Bearer tokenB"`. -/
theorem bearerToken_spec_witness :
    Char.ofNat 32 ∉ "tokenB".data ∧
    bearerToken (some ("Bearer " ++ "tokenB")) = some "tokenB" ∧
    bearerToken (some ("bearer " ++ "tokenB")) = none ∧
    truthy (bearerToken (some "Bearer ")) = false ∧
    (∀ rest : String, truthy (bearerToken (some ("Bearer  " ++ rest))) = false) :=
  have h := bearerToken_spec "tokenB" (by decide) (by decide)
  ⟨by decide, h.1, h.2.2.2.2.1, h.2.2.2.2.2.2.1, h.2.2.2.2.2.2.2.1⟩

end AuthBackend
